import Mathlib

/-!
A shallow embedding of the `interchange` crate (`src/lib.rs`): a lock-free
request/response channel guarded by a byte-sized atomic state, plus a pool
(`Interchange`) of such channels.

The embedding is sequential: each public operation is a pure function from a
`Channel` value to a result together with the updated `Channel`.  Atomic
compare-and-swap on the state byte becomes a conditional update
(`Channel.transition`); sequentially, a CAS succeeds exactly when the loaded
byte matches.  The `unreachable!()` branches of the `Message` extraction
helpers are modelled by an outer `Option`: a `none` result of an operation
means the source would have executed an `unreachable!()` branch (a panic);
`some` carries the ordinary return value and the updated channel.
-/

set_option autoImplicit false

/-- Rust `struct Error`: the single uniform error value returned by every fallible
operation ("The interchange is busy, this operation could not be performed"). -/
structure Error : Type where

instance : DecidableEq Error := fun _ _ => .isTrue rfl

/-- Rust `enum State` (`repr(u8)`): the six-valued phase tag of one exchange. -/
inductive State : Type where
  | Idle
  | BuildingRequest
  | Requested
  | BuildingResponse
  | Responded
  | Canceled
  deriving DecidableEq

/-- The `repr(u8)` discriminants: `Idle = 0, ..., Responded = 4, Canceled = 12`. -/
def State.toU8 : State → Nat
  | .Idle => 0
  | .BuildingRequest => 1
  | .Requested => 2
  | .BuildingResponse => 3
  | .Responded => 4
  | .Canceled => 12

/-- Rust `impl From<u8> for State`: total decoding, every unlisted byte maps to `Idle`. -/
def State.fromByte (byte : Nat) : State :=
  match byte with
  | 1 => State.BuildingRequest
  | 2 => State.Requested
  | 3 => State.BuildingResponse
  | 4 => State.Responded
  | 12 => State.Canceled
  | _ => State.Idle

/-- Rust `enum Message<Rq, Rp>`: the tagged payload slot. -/
inductive Message (Rq Rp : Type) : Type where
  | None
  | Request (rq : Rq)
  | Response (rp : Rp)
  deriving DecidableEq

variable {Rq Rp : Type}

/-- Rust `Message::is_request_state`. -/
def Message.is_request_state : Message Rq Rp → Bool
  | .Request _ => true
  | _ => false

/-- Rust `Message::is_response_state`. -/
def Message.is_response_state : Message Rq Rp → Bool
  | .Response _ => true
  | _ => false

/-- Rust `Message::take_rq`: replaces the slot by `None` and returns the request.
The `none` result is the `unreachable!()` branch. -/
def Message.take_rq : Message Rq Rp → Option (Rq × Message Rq Rp)
  | .Request r => some (r, .None)
  | _ => none

/-- Rust `Message::rq_ref`: reads the request behind `&Rq`.
The `none` result is the `unreachable!()` branch. -/
def Message.rq_ref : Message Rq Rp → Option Rq
  | .Request r => some r
  | _ => none

/-- Rust `Message::rq_mut` hands out `&mut Rq`; in this embedding the caller's
mutation through that reference is a function `f` applied in place.
The `none` result is the `unreachable!()` branch. -/
def Message.rq_mut {R : Type} (f : Rq → Rq × R) :
    Message Rq Rp → Option (R × Message Rq Rp)
  | .Request r => some ((f r).2, .Request (f r).1)
  | _ => none

/-- Rust `Message::take_rp`: replaces the slot by `None` and returns the response.
The `none` result is the `unreachable!()` branch. -/
def Message.take_rp : Message Rq Rp → Option (Rp × Message Rq Rp)
  | .Response r => some (r, .None)
  | _ => none

/-- Rust `Message::rp_ref`: reads the response behind `&Rp`.
The `none` result is the `unreachable!()` branch. -/
def Message.rp_ref : Message Rq Rp → Option Rp
  | .Response r => some r
  | _ => none

/-- Rust `Message::rp_mut`, analogous to `rq_mut`. -/
def Message.rp_mut {R : Type} (f : Rp → Rp × R) :
    Message Rq Rp → Option (R × Message Rq Rp)
  | .Response r => some ((f r).2, .Response (f r).1)
  | _ => none

/-- Rust `Message::from_rq`. -/
def Message.from_rq (rq : Rq) : Message Rq Rp := .Request rq

/-- Rust `Message::from_rp`. -/
def Message.from_rp (rp : Rp) : Message Rq Rp := .Response rp

/-- Rust `struct Channel<Rq, Rp>`: the payload slot, the state byte (stored as a
`Nat`; only the bytes 0, 1, 2, 3, 4, 12 are ever stored), and the two claim
flags. -/
structure Channel (Rq Rp : Type) : Type where
  data : Message Rq Rp
  state : Nat
  requester_claimed : Bool
  responder_claimed : Bool
  deriving DecidableEq

/-- Rust `Channel::new` (also `CHANNEL_INIT`): empty slot, `Idle`, both ends
unclaimed. -/
def Channel.new : Channel Rq Rp :=
  { data := Message.None
    state := 0
    requester_claimed := false
    responder_claimed := false }

/-- Rust `Channel::transition`: compare-and-swap on the state byte.  Sequentially
the CAS succeeds exactly when the current byte equals `f as u8`; on success
the byte becomes `t as u8`, on failure the channel is unchanged. -/
def Channel.transition (c : Channel Rq Rp) (f t : State) : Bool × Channel Rq Rp :=
  if c.state = f.toU8 then (true, { c with state := t.toU8 }) else (false, c)

/-- Rust `Channel::requester`: CAS `false → true` on `requester_claimed`.  The
`Bool` result is `is_some` of the returned handle; the handle itself carries
no data beyond the borrowed channel. -/
def Channel.requester (c : Channel Rq Rp) : Bool × Channel Rq Rp :=
  if c.requester_claimed = false then (true, { c with requester_claimed := true })
  else (false, c)

/-- Rust `Channel::responder`: CAS `false → true` on `responder_claimed`. -/
def Channel.responder (c : Channel Rq Rp) : Bool × Channel Rq Rp :=
  if c.responder_claimed = false then (true, { c with responder_claimed := true })
  else (false, c)

/-- Rust `impl Drop for Requester`: releasing the handle stores `false` into
`requester_claimed`. -/
def Requester.drop (c : Channel Rq Rp) : Channel Rq Rp :=
  { c with requester_claimed := false }

/-- Rust `impl Drop for Responder`: releasing the handle stores `false` into
`responder_claimed`. -/
def Responder.drop (c : Channel Rq Rp) : Channel Rq Rp :=
  { c with responder_claimed := false }

/-- Rust `Channel::split`: `Some((self.requester()?, self.responder()?))`.
If the requester claim succeeds but the responder claim fails, the `?`
operator early-returns `None`; the temporary `Requester` produced by the
first claim is dropped on that early return, and its `Drop` impl stores
`false` back into `requester_claimed`. -/
def Channel.split (c : Channel Rq Rp) : Bool × Channel Rq Rp :=
  let r := c.requester
  if r.1 then
    let p := r.2.responder
    if p.1 then (true, p.2)
    else (false, Requester.drop p.2)
  else (false, r.2)

/-- Rust `Requester::state`: decode the currently stored byte.  Informational only. -/
def Requester.state (c : Channel Rq Rp) : State :=
  State.fromByte c.state

/-- Rust `Requester::request`: if the loaded state equals `Idle`, store
`Message::from_rq(request)` into the slot and publish `Requested`; otherwise
fail. -/
def Requester.request (c : Channel Rq Rp) (request : Rq) :
    Except Error Unit × Channel Rq Rp :=
  if State.Idle.toU8 = c.state then
    (Except.ok (), { c with data := Message.from_rq request, state := State.Requested.toU8 })
  else
    (Except.error ⟨⟩, c)

/-- Rust `Requester::cancel`: first try CAS `BuildingResponse → Canceled`
(returns `Ok(None)`), then CAS `Requested → Idle` (extracts and returns the
request), else fail. -/
def Requester.cancel (c : Channel Rq Rp) :
    Option (Except Error (Option Rq) × Channel Rq Rp) :=
  let t1 := c.transition State.BuildingResponse State.Canceled
  if t1.1 then
    some (Except.ok none, t1.2)
  else
    let t2 := t1.2.transition State.Requested State.Idle
    if t2.1 then
      match t2.2.data.take_rq with
      | some (rq, d) => some (Except.ok (some rq), { t2.2 with data := d })
      | none => none
    else
      some (Except.error ⟨⟩, t2.2)

/-- Rust `Requester::response`: no-op CAS `Responded → Responded` used as an
acquire fence, then read the response behind `&Rp`. -/
def Requester.response (c : Channel Rq Rp) :
    Option (Except Error Rp × Channel Rq Rp) :=
  let t := c.transition State.Responded State.Responded
  if t.1 then
    match t.2.data.rp_ref with
    | some rp => some (Except.ok rp, t.2)
    | none => none
  else
    some (Except.error ⟨⟩, t.2)

/-- Rust `Requester::with_response`: like `response`, applying `f` to the
response reference. -/
def Requester.with_response {R : Type} (c : Channel Rq Rp) (f : Rp → R) :
    Option (Except Error R × Channel Rq Rp) :=
  let t := c.transition State.Responded State.Responded
  if t.1 then
    match t.2.data.rp_ref with
    | some rp => some (Except.ok (f rp), t.2)
    | none => none
  else
    some (Except.error ⟨⟩, t.2)

/-- Rust `Requester::take_response`: CAS `Responded → Idle`, then extract the
response from the slot. -/
def Requester.take_response (c : Channel Rq Rp) :
    Option (Option Rp × Channel Rq Rp) :=
  let t := c.transition State.Responded State.Idle
  if t.1 then
    match t.2.data.take_rp with
    | some (rp, d) => some (some rp, { t.2 with data := d })
    | none => none
  else
    some (none, t.2)

/-- Rust `Requester::with_request_mut` (requires `Rq: Default`, modelled by
`Inhabited`): CAS `Idle → BuildingRequest` or, failing that,
`BuildingRequest → BuildingRequest`; then, if the slot is not in request
state, store `Message::from_rq(Rq::default())`; finally apply the caller's
mutation `f` through `rq_mut`. -/
def Requester.with_request_mut {R : Type} [Inhabited Rq] (c : Channel Rq Rp)
    (f : Rq → Rq × R) : Option (Except Error R × Channel Rq Rp) :=
  let t1 := c.transition State.Idle State.BuildingRequest
  let t2 := if t1.1 then t1 else t1.2.transition State.BuildingRequest State.BuildingRequest
  if t2.1 then
    let d1 := if t2.2.data.is_request_state = false then Message.from_rq (Inhabited.default)
              else t2.2.data
    match Message.rq_mut f d1 with
    | some (r, d2) => some (Except.ok r, { t2.2 with data := d2 })
    | none => none
  else
    some (Except.error ⟨⟩, t2.2)

/-- Rust `Requester::request_mut`: same CAS pair and lazy default-initialization
as `with_request_mut`, then returns the value behind the `&mut Rq` handed to
the caller. -/
def Requester.request_mut [Inhabited Rq] (c : Channel Rq Rp) :
    Option (Except Error Rq × Channel Rq Rp) :=
  let t1 := c.transition State.Idle State.BuildingRequest
  let t2 := if t1.1 then t1 else t1.2.transition State.BuildingRequest State.BuildingRequest
  if t2.1 then
    let d1 := if t2.2.data.is_request_state = false then Message.from_rq (Inhabited.default)
              else t2.2.data
    match d1.rq_ref with
    | some rq => some (Except.ok rq, { t2.2 with data := d1 })
    | none => none
  else
    some (Except.error ⟨⟩, t2.2)

/-- Rust `Requester::send_request`: loaded state must equal `BuildingRequest`,
then (short-circuit `&&`) CAS `BuildingRequest → Requested`. -/
def Requester.send_request (c : Channel Rq Rp) :
    Except Error Unit × Channel Rq Rp :=
  if State.BuildingRequest.toU8 = c.state then
    let t := c.transition State.BuildingRequest State.Requested
    if t.1 then (Except.ok (), t.2) else (Except.error ⟨⟩, t.2)
  else
    (Except.error ⟨⟩, c)

/-- Rust `Responder::state`: decode the currently stored byte.  Informational only. -/
def Responder.state (c : Channel Rq Rp) : State :=
  State.fromByte c.state

/-- Rust `Responder::with_request`: CAS `Requested → BuildingResponse`, then apply
`f` to the request behind `&Rq`, leaving the request in the slot. -/
def Responder.with_request {R : Type} (c : Channel Rq Rp) (f : Rq → R) :
    Option (Except Error R × Channel Rq Rp) :=
  let t := c.transition State.Requested State.BuildingResponse
  if t.1 then
    match t.2.data.rq_ref with
    | some rq => some (Except.ok (f rq), t.2)
    | none => none
  else
    some (Except.error ⟨⟩, t.2)

/-- Rust `Responder::request` (peek): CAS `Requested → BuildingResponse`, then
read the request behind `&Rq`, leaving it in the slot. -/
def Responder.request (c : Channel Rq Rp) :
    Option (Except Error Rq × Channel Rq Rp) :=
  let t := c.transition State.Requested State.BuildingResponse
  if t.1 then
    match t.2.data.rq_ref with
    | some rq => some (Except.ok rq, t.2)
    | none => none
  else
    some (Except.error ⟨⟩, t.2)

/-- Rust `Responder::take_request`: CAS `Requested → BuildingResponse`, then
extract the request from the slot. -/
def Responder.take_request (c : Channel Rq Rp) :
    Option (Option Rq × Channel Rq Rp) :=
  let t := c.transition State.Requested State.BuildingResponse
  if t.1 then
    match t.2.data.take_rq with
    | some (rq, d) => some (some rq, { t.2 with data := d })
    | none => none
  else
    some (none, t.2)

/-- Rust `Responder::is_canceled`: pure read of `state == Canceled as u8`. -/
def Responder.is_canceled (c : Channel Rq Rp) : Bool :=
  c.state == State.Canceled.toU8

/-- Rust `Responder::acknowledge_cancel`: CAS `Canceled → Idle`. -/
def Responder.acknowledge_cancel (c : Channel Rq Rp) :
    Except Error Unit × Channel Rq Rp :=
  let t := c.transition State.Canceled State.Idle
  if t.1 then (Except.ok (), t.2) else (Except.error ⟨⟩, t.2)

/-- Rust `Responder::respond`: loaded state must equal `BuildingResponse`; then
store `Message::from_rp(response)` into the slot and CAS
`BuildingResponse → Responded`. -/
def Responder.respond (c : Channel Rq Rp) (response : Rp) :
    Except Error Unit × Channel Rq Rp :=
  if State.BuildingResponse.toU8 = c.state then
    let c1 := { c with data := Message.from_rp response }
    let t := c1.transition State.BuildingResponse State.Responded
    if t.1 then (Except.ok (), t.2) else (Except.error ⟨⟩, t.2)
  else
    (Except.error ⟨⟩, c)

/-- Rust `Responder::with_response_mut` (requires `Rp: Default`): CAS
`Requested → BuildingResponse` or `BuildingResponse → BuildingResponse`;
lazily default-initialize the slot to a response, then apply `f` through
`rp_mut`. -/
def Responder.with_response_mut {R : Type} [Inhabited Rp] (c : Channel Rq Rp)
    (f : Rp → Rp × R) : Option (Except Error R × Channel Rq Rp) :=
  let t1 := c.transition State.Requested State.BuildingResponse
  let t2 := if t1.1 then t1 else t1.2.transition State.BuildingResponse State.BuildingResponse
  if t2.1 then
    let d1 := if t2.2.data.is_response_state = false then Message.from_rp (Inhabited.default)
              else t2.2.data
    match Message.rp_mut f d1 with
    | some (r, d2) => some (Except.ok r, { t2.2 with data := d2 })
    | none => none
  else
    some (Except.error ⟨⟩, t2.2)

/-- Rust `Responder::response_mut`: same CAS pair and lazy default-initialization
as `with_response_mut`, then returns the value behind the `&mut Rp` handed
to the caller. -/
def Responder.response_mut [Inhabited Rp] (c : Channel Rq Rp) :
    Option (Except Error Rp × Channel Rq Rp) :=
  let t1 := c.transition State.Requested State.BuildingResponse
  let t2 := if t1.1 then t1 else t1.2.transition State.BuildingResponse State.BuildingResponse
  if t2.1 then
    let d1 := if t2.2.data.is_response_state = false then Message.from_rp (Inhabited.default)
              else t2.2.data
    match d1.rp_ref with
    | some rp => some (Except.ok rp, { t2.2 with data := d1 })
    | none => none
  else
    some (Except.error ⟨⟩, t2.2)

/-- Rust `Responder::send_response`: loaded state must equal `BuildingResponse`,
then (short-circuit `&&`) CAS `BuildingResponse → Responded`. -/
def Responder.send_response (c : Channel Rq Rp) :
    Except Error Unit × Channel Rq Rp :=
  if State.BuildingResponse.toU8 = c.state then
    let t := c.transition State.BuildingResponse State.Responded
    if t.1 then (Except.ok (), t.2) else (Except.error ⟨⟩, t.2)
  else
    (Except.error ⟨⟩, c)

/-! ## Helper lemmas -/

theorem Channel.update_state_self {Rq Rp : Type} {c : Channel Rq Rp} {s : Nat}
    (h : c.state = s) : { c with state := s } = c := by
  cases c
  simp_all

theorem Message.is_request_state_iff {Rq Rp : Type} {m : Message Rq Rp} :
    m.is_request_state = true ↔ ∃ rq, m = Message.Request rq := by
  cases m <;> simp [Message.is_request_state]

theorem Message.is_response_state_iff {Rq Rp : Type} {m : Message Rq Rp} :
    m.is_response_state = true ↔ ∃ rp, m = Message.Response rp := by
  cases m <;> simp [Message.is_response_state]

/-! ## C10 -/

/-- C10: decoding a state byte is total and defaults to `Idle`:
`State::from(b)` returns `BuildingRequest`, `Requested`, `BuildingResponse`,
`Responded`, `Canceled` for `b = 1, 2, 3, 4, 12` respectively and `Idle` for
every other byte, and `Requester::state` / `Responder::state` decode the
stored byte through this total function, so they never fail. -/
theorem C10_state_decode_total {Rq Rp : Type} (b : Nat) (c : Channel Rq Rp)
    (h1 : b ≠ 1) (h2 : b ≠ 2) (h3 : b ≠ 3) (h4 : b ≠ 4) (h12 : b ≠ 12) :
    State.fromByte 1 = State.BuildingRequest ∧
    State.fromByte 2 = State.Requested ∧
    State.fromByte 3 = State.BuildingResponse ∧
    State.fromByte 4 = State.Responded ∧
    State.fromByte 12 = State.Canceled ∧
    State.fromByte b = State.Idle ∧
    Requester.state c = State.fromByte c.state ∧
    Responder.state c = State.fromByte c.state := by
  refine ⟨rfl, rfl, rfl, rfl, rfl, ?_, rfl, rfl⟩
  unfold State.fromByte
  split <;> simp_all

/-- Witness for C10 at `b = 7` (and at `b = 0` via a second application would
be identical); the channel argument is a concrete byte-255 channel, showing
`state()` is well-defined even for an out-of-range stored byte. -/
theorem C10_state_decode_total_witness :
    State.fromByte 7 = State.Idle ∧
    Requester.state (⟨Message.None, 255, false, false⟩ : Channel Unit Unit) =
      State.fromByte 255 :=
  ⟨(C10_state_decode_total 7 (⟨Message.None, 255, false, false⟩ : Channel Unit Unit)
      (by decide) (by decide) (by decide) (by decide) (by decide)).2.2.2.2.2.1,
   (C10_state_decode_total 7 (⟨Message.None, 255, false, false⟩ : Channel Unit Unit)
      (by decide) (by decide) (by decide) (by decide) (by decide)).2.2.2.2.2.2.1⟩

/-! ## C1 -/

/-- C1: round trip.  On any channel in state `Idle` with both handles held,
`request(v)` succeeds; `take_request()` then returns a value equal to `v`;
`respond(w)` then succeeds; `take_response()` then returns a value equal to
`w`; and the final state is `Idle`. -/
theorem C1_round_trip {Rq Rp : Type} (c : Channel Rq Rp) (v : Rq) (w : Rp)
    (hs : c.state = 0) (hq : c.requester_claimed = true)
    (hp : c.responder_claimed = true) :
    ∃ c1 c2 c3 c4 : Channel Rq Rp,
      Requester.request c v = (Except.ok (), c1) ∧
      Responder.take_request c1 = some (some v, c2) ∧
      Responder.respond c2 w = (Except.ok (), c3) ∧
      Requester.take_response c3 = some (some w, c4) ∧
      c4.state = 0 := by
  refine ⟨{ c with data := Message.Request v, state := 2 },
          { c with data := Message.None, state := 3 },
          { c with data := Message.Response w, state := 4 },
          { c with data := Message.None, state := 0 }, ?_, ?_, ?_, ?_, rfl⟩
  · simp [Requester.request, Message.from_rq, State.toU8, hs]
  · simp [Responder.take_request, Channel.transition, State.toU8, Message.take_rq]
  · simp [Responder.respond, Channel.transition, State.toU8, Message.from_rp]
  · simp [Requester.take_response, Channel.transition, State.toU8, Message.take_rp]

/-- Witness for C1 on a concrete idle, fully claimed channel. -/
theorem C1_round_trip_witness :
    ∃ c1 c2 c3 c4 : Channel Nat Nat,
      Requester.request (⟨Message.None, 0, true, true⟩ : Channel Nat Nat) 5 =
        (Except.ok (), c1) ∧
      Responder.take_request c1 = some (some 5, c2) ∧
      Responder.respond c2 7 = (Except.ok (), c3) ∧
      Requester.take_response c3 = some (some 7, c4) ∧
      c4.state = 0 :=
  C1_round_trip (⟨Message.None, 0, true, true⟩ : Channel Nat Nat) 5 7 rfl rfl rfl

/-! ## C4 -/

/-- C4 counterexample: on a channel whose responder end is claimed and whose
requester end is unclaimed, `split()` fails, but the requester claim made by
`split()` itself IS rolled back (the temporary `Requester` is dropped on the
early return, resetting the flag), so a subsequent `requester()` call
succeeds — contradicting the claim that the requester end remains claimed
and that `requester()` then fails. -/
theorem C4_counterexample :
    (Channel.split (⟨Message.None, 0, false, true⟩ : Channel Unit Unit)).1 = false ∧
    ((Channel.split (⟨Message.None, 0, false, true⟩ : Channel Unit Unit)).2).requester_claimed
      = false ∧
    (((Channel.split (⟨Message.None, 0, false, true⟩ : Channel Unit Unit)).2).requester).1
      = true :=
  ⟨rfl, rfl, rfl⟩

/-- C4 amended: if `split()` is called on a channel whose responder end is
already claimed but whose requester end is unclaimed, `split()` returns
nothing and the requester claim that `split()` itself just made IS rolled
back by the dropped `Requester` handle: afterwards the channel is unchanged
(the requester end is unclaimed), so a subsequent `requester()` call
succeeds. -/
theorem C4_split_failure_rolls_back_requester {Rq Rp : Type} (c : Channel Rq Rp)
    (hp : c.responder_claimed = true) (hq : c.requester_claimed = false) :
    Channel.split c = (false, c) ∧ ((Channel.split c).2.requester).1 = true := by
  obtain ⟨d, s, q, p⟩ := c
  simp only at hp hq
  subst hp hq
  simp [Channel.split, Channel.requester, Channel.responder, Requester.drop]

/-- Witness for the amended C4 on a concrete channel. -/
theorem C4_split_failure_rolls_back_requester_witness :
    Channel.split (⟨Message.None, 0, false, true⟩ : Channel Unit Unit)
      = (false, ⟨Message.None, 0, false, true⟩) ∧
    (((Channel.split (⟨Message.None, 0, false, true⟩ : Channel Unit Unit)).2).requester).1
      = true :=
  C4_split_failure_rolls_back_requester (⟨Message.None, 0, false, true⟩ : Channel Unit Unit)
    rfl rfl

/-! ## C3 -/

/-- C3: `cancel()` tries, in order, CAS `BuildingResponse → Canceled`
(success: `Ok(None)`, payload slot untouched), then CAS `Requested → Idle`
(success: `Ok(Some r)` with `r` extracted from the slot); from any state in
which neither CAS applies it fails with the logic error, leaving the channel
unchanged.  Moreover, after `request(v)`, `take_request()`, `cancel()`:
`cancel` returns `Ok(None)`, `is_canceled()` is true, `respond(_)` fails,
and `acknowledge_cancel()` succeeds and resets the state to `Idle`. -/
theorem C3_cancel_behaviour {Rq Rp : Type} (ca cb cc c0 : Channel Rq Rp)
    (rq : Rq) (v : Rq) (w : Rp)
    (ha : ca.state = 3)
    (hb : cb.state = 2) (hbd : cb.data = Message.Request rq)
    (hc2 : cc.state ≠ 2) (hc3 : cc.state ≠ 3)
    (h0 : c0.state = 0) :
    Requester.cancel ca = some (Except.ok none, { ca with state := 12 }) ∧
    Requester.cancel cb
      = some (Except.ok (some rq), { cb with data := Message.None, state := 0 }) ∧
    Requester.cancel cc = some (Except.error ⟨⟩, cc) ∧
    (∃ c1 c2 c3 c4 : Channel Rq Rp,
      Requester.request c0 v = (Except.ok (), c1) ∧
      Responder.take_request c1 = some (some v, c2) ∧
      Requester.cancel c2 = some (Except.ok none, c3) ∧
      Responder.is_canceled c3 = true ∧
      Responder.respond c3 w = (Except.error ⟨⟩, c3) ∧
      Responder.acknowledge_cancel c3 = (Except.ok (), c4) ∧
      c4.state = 0) := by
  refine ⟨?_, ?_, ?_, ?_⟩
  · simp [Requester.cancel, Channel.transition, State.toU8, ha]
  · simp [Requester.cancel, Channel.transition, State.toU8, hb, hbd, Message.take_rq]
  · simp [Requester.cancel, Channel.transition, State.toU8, hc2, hc3]
  · refine ⟨{ c0 with data := Message.Request v, state := 2 },
            { c0 with data := Message.None, state := 3 },
            { c0 with data := Message.None, state := 12 },
            { c0 with data := Message.None, state := 0 }, ?_, ?_, ?_, ?_, ?_, ?_, rfl⟩
    · simp [Requester.request, Message.from_rq, State.toU8, h0]
    · simp [Responder.take_request, Channel.transition, State.toU8, Message.take_rq]
    · simp [Requester.cancel, Channel.transition, State.toU8]
    · simp [Responder.is_canceled, State.toU8]
    · simp [Responder.respond, Channel.transition, State.toU8]
    · simp [Responder.acknowledge_cancel, Channel.transition, State.toU8]

/-- Witness for C3 on concrete channels covering all three cancel branches
and the cancel-after-take scenario. -/
theorem C3_cancel_behaviour_witness :
    Requester.cancel (⟨Message.None, 3, true, true⟩ : Channel Nat Nat)
      = some (Except.ok none, ⟨Message.None, 12, true, true⟩) ∧
    Requester.cancel (⟨Message.Request 5, 2, true, true⟩ : Channel Nat Nat)
      = some (Except.ok (some 5), ⟨Message.None, 0, true, true⟩) ∧
    Requester.cancel (⟨Message.None, 0, true, true⟩ : Channel Nat Nat)
      = some (Except.error ⟨⟩, ⟨Message.None, 0, true, true⟩) ∧
    (∃ c1 c2 c3 c4 : Channel Nat Nat,
      Requester.request (⟨Message.None, 0, true, true⟩ : Channel Nat Nat) 5
        = (Except.ok (), c1) ∧
      Responder.take_request c1 = some (some 5, c2) ∧
      Requester.cancel c2 = some (Except.ok none, c3) ∧
      Responder.is_canceled c3 = true ∧
      Responder.respond c3 7 = (Except.error ⟨⟩, c3) ∧
      Responder.acknowledge_cancel c3 = (Except.ok (), c4) ∧
      c4.state = 0) :=
  C3_cancel_behaviour (⟨Message.None, 3, true, true⟩ : Channel Nat Nat)
    (⟨Message.Request 5, 2, true, true⟩ : Channel Nat Nat)
    (⟨Message.None, 0, true, true⟩ : Channel Nat Nat)
    (⟨Message.None, 0, true, true⟩ : Channel Nat Nat)
    5 5 7 rfl rfl rfl (by decide) (by decide) rfl

/-! ## C9 -/

/-- C9: while the state is `Responded` (with the response in the slot, as the
protocol guarantees), `response()` and `with_response(f)` each succeed,
return the same response value, and leave the channel unchanged (so they can
be called repeatedly); from any other state they fail.  `take_response()`
returns a given response at most once: a successful call moves the state to
`Idle` and empties the slot, and a second call before a new response is
produced returns `None`. -/
theorem C9_response_peek_idempotent_take_once {Rq Rp R : Type}
    (c c' : Channel Rq Rp) (rp : Rp) (f : Rp → R)
    (h4 : c.state = 4) (hd : c.data = Message.Response rp) (h' : c'.state ≠ 4) :
    Requester.response c = some (Except.ok rp, c) ∧
    Requester.with_response c f = some (Except.ok (f rp), c) ∧
    Requester.response c' = some (Except.error ⟨⟩, c') ∧
    Requester.with_response c' f = some (Except.error ⟨⟩, c') ∧
    Requester.take_response c
      = some (some rp, { c with data := Message.None, state := 0 }) ∧
    Requester.take_response ({ c with data := Message.None, state := 0 } : Channel Rq Rp)
      = some ((none : Option Rp), { c with data := Message.None, state := 0 }) := by
  obtain ⟨d, s, q, p⟩ := c
  simp only at h4 hd
  subst h4 hd
  refine ⟨?_, ?_, ?_, ?_, ?_, ?_⟩
  · simp [Requester.response, Channel.transition, State.toU8, Message.rp_ref]
  · simp [Requester.with_response, Channel.transition, State.toU8, Message.rp_ref]
  · simp [Requester.response, Channel.transition, State.toU8, h']
  · simp [Requester.with_response, Channel.transition, State.toU8, h']
  · simp [Requester.take_response, Channel.transition, State.toU8, Message.take_rp]
  · simp [Requester.take_response, Channel.transition, State.toU8]

/-- Witness for C9 on a concrete responded channel. -/
theorem C9_response_peek_idempotent_take_once_witness :
    Requester.response (⟨Message.Response 9, 4, true, true⟩ : Channel Nat Nat)
      = some (Except.ok 9, ⟨Message.Response 9, 4, true, true⟩) ∧
    Requester.with_response (⟨Message.Response 9, 4, true, true⟩ : Channel Nat Nat)
        (fun x => x + 1)
      = some (Except.ok 10, ⟨Message.Response 9, 4, true, true⟩) ∧
    Requester.response (⟨Message.None, 0, true, true⟩ : Channel Nat Nat)
      = some (Except.error ⟨⟩, ⟨Message.None, 0, true, true⟩) ∧
    Requester.with_response (⟨Message.None, 0, true, true⟩ : Channel Nat Nat)
        (fun x => x + 1)
      = some (Except.error ⟨⟩, ⟨Message.None, 0, true, true⟩) ∧
    Requester.take_response (⟨Message.Response 9, 4, true, true⟩ : Channel Nat Nat)
      = some (some 9, ⟨Message.None, 0, true, true⟩) ∧
    Requester.take_response (⟨Message.None, 0, true, true⟩ : Channel Nat Nat)
      = some (none, ⟨Message.None, 0, true, true⟩) :=
  C9_response_peek_idempotent_take_once
    (⟨Message.Response 9, 4, true, true⟩ : Channel Nat Nat)
    (⟨Message.None, 0, true, true⟩ : Channel Nat Nat)
    9 (fun x => x + 1) rfl rfl (by decide)

/-! ## C7 -/

/-- The tag/state correspondence that the CAS protocol maintains (spec §3):
in `BuildingRequest` and `Requested` the slot holds a request, and in
`Responded` it holds a response. -/
def SlotInv (c : Channel Rq Rp) : Prop :=
  (c.state = 1 → c.data.is_request_state = true) ∧
  (c.state = 2 → c.data.is_request_state = true) ∧
  (c.state = 4 → c.data.is_response_state = true)

instance {Rq Rp : Type} (c : Channel Rq Rp) : Decidable (SlotInv c) := by
  unfold SlotInv
  infer_instance

/-- The request stored in the slot, or the default value if the slot does not
hold a request (matching the lazy default-initialization of
`with_request_mut`). -/
def Message.getRqD [Inhabited Rq] : Message Rq Rp → Rq
  | .Request r => r
  | _ => Inhabited.default

/-- The response stored in the slot, or the default value if the slot does
not hold a response. -/
def Message.getRpD [Inhabited Rp] : Message Rq Rp → Rp
  | .Response r => r
  | _ => Inhabited.default

/-- C7: every fallible `Requester`/`Responder` operation fails exactly when
invoked from a state that does not permit it, always with the single uniform
error value, and a failing call leaves the channel (state byte and payload
slot) unchanged — so repeating the same call without an intervening state
change by the peer fails identically.  The success cases are stated with
their exact effect, under the tag/state correspondence `SlotInv` that the
protocol maintains. -/
theorem C7_fail_iff_wrong_state {Rq Rp A B C D : Type} [Inhabited Rq] [Inhabited Rp]
    (c : Channel Rq Rp) (hinv : SlotInv c) (v : Rq) (w : Rp)
    (f1 : Rq → Rq × A) (f2 : Rp → B) (f3 : Rq → C) (f4 : Rp → Rp × D) :
    -- Requester::request — permitted from Idle
    ((c.state = 0 →
        Requester.request c v
          = (Except.ok (), { c with data := Message.Request v, state := 2 })) ∧
     (c.state ≠ 0 → Requester.request c v = (Except.error ⟨⟩, c))) ∧
    -- Requester::with_request_mut — permitted from Idle and BuildingRequest
    ((c.state = 0 ∨ c.state = 1 →
        Requester.with_request_mut c f1
          = some (Except.ok (f1 c.data.getRqD).2,
                  { c with data := Message.Request (f1 c.data.getRqD).1, state := 1 })) ∧
     (c.state ≠ 0 → c.state ≠ 1 →
        Requester.with_request_mut c f1 = some (Except.error ⟨⟩, c))) ∧
    -- Requester::request_mut — permitted from Idle and BuildingRequest
    ((c.state = 0 ∨ c.state = 1 →
        Requester.request_mut c
          = some (Except.ok c.data.getRqD,
                  { c with data := Message.Request c.data.getRqD, state := 1 })) ∧
     (c.state ≠ 0 → c.state ≠ 1 →
        Requester.request_mut c = some (Except.error ⟨⟩, c))) ∧
    -- Requester::send_request — permitted from BuildingRequest
    ((c.state = 1 →
        Requester.send_request c = (Except.ok (), { c with state := 2 })) ∧
     (c.state ≠ 1 → Requester.send_request c = (Except.error ⟨⟩, c))) ∧
    -- Requester::cancel — permitted from BuildingResponse and Requested
    ((c.state = 3 →
        Requester.cancel c = some (Except.ok none, { c with state := 12 })) ∧
     (c.state = 2 →
        Requester.cancel c
          = some (Except.ok (some c.data.getRqD),
                  { c with data := Message.None, state := 0 })) ∧
     (c.state ≠ 2 → c.state ≠ 3 →
        Requester.cancel c = some (Except.error ⟨⟩, c))) ∧
    -- Requester::response — permitted from Responded
    ((c.state = 4 →
        Requester.response c = some (Except.ok c.data.getRpD, c)) ∧
     (c.state ≠ 4 → Requester.response c = some (Except.error ⟨⟩, c))) ∧
    -- Requester::with_response — permitted from Responded
    ((c.state = 4 →
        Requester.with_response c f2 = some (Except.ok (f2 c.data.getRpD), c)) ∧
     (c.state ≠ 4 → Requester.with_response c f2 = some (Except.error ⟨⟩, c))) ∧
    -- Requester::take_response — permitted from Responded
    ((c.state = 4 →
        Requester.take_response c
          = some (some c.data.getRpD, { c with data := Message.None, state := 0 })) ∧
     (c.state ≠ 4 →
        Requester.take_response c = some ((none : Option Rp), c))) ∧
    -- Responder::with_request — permitted from Requested
    ((c.state = 2 →
        Responder.with_request c f3
          = some (Except.ok (f3 c.data.getRqD), { c with state := 3 })) ∧
     (c.state ≠ 2 → Responder.with_request c f3 = some (Except.error ⟨⟩, c))) ∧
    -- Responder::request — permitted from Requested
    ((c.state = 2 →
        Responder.request c
          = some (Except.ok c.data.getRqD, { c with state := 3 })) ∧
     (c.state ≠ 2 → Responder.request c = some (Except.error ⟨⟩, c))) ∧
    -- Responder::take_request — permitted from Requested
    ((c.state = 2 →
        Responder.take_request c
          = some (some c.data.getRqD, { c with data := Message.None, state := 3 })) ∧
     (c.state ≠ 2 →
        Responder.take_request c = some ((none : Option Rq), c))) ∧
    -- Responder::acknowledge_cancel — permitted from Canceled
    ((c.state = 12 →
        Responder.acknowledge_cancel c = (Except.ok (), { c with state := 0 })) ∧
     (c.state ≠ 12 → Responder.acknowledge_cancel c = (Except.error ⟨⟩, c))) ∧
    -- Responder::respond — permitted from BuildingResponse
    ((c.state = 3 →
        Responder.respond c w
          = (Except.ok (), { c with data := Message.Response w, state := 4 })) ∧
     (c.state ≠ 3 → Responder.respond c w = (Except.error ⟨⟩, c))) ∧
    -- Responder::with_response_mut — permitted from Requested and BuildingResponse
    ((c.state = 2 ∨ c.state = 3 →
        Responder.with_response_mut c f4
          = some (Except.ok (f4 c.data.getRpD).2,
                  { c with data := Message.Response (f4 c.data.getRpD).1, state := 3 })) ∧
     (c.state ≠ 2 → c.state ≠ 3 →
        Responder.with_response_mut c f4 = some (Except.error ⟨⟩, c))) ∧
    -- Responder::response_mut — permitted from Requested and BuildingResponse
    ((c.state = 2 ∨ c.state = 3 →
        Responder.response_mut c
          = some (Except.ok c.data.getRpD,
                  { c with data := Message.Response c.data.getRpD, state := 3 })) ∧
     (c.state ≠ 2 → c.state ≠ 3 →
        Responder.response_mut c = some (Except.error ⟨⟩, c))) ∧
    -- Responder::send_response — permitted from BuildingResponse
    ((c.state = 3 →
        Responder.send_response c = (Except.ok (), { c with state := 4 })) ∧
     (c.state ≠ 3 → Responder.send_response c = (Except.error ⟨⟩, c))) := by
  obtain ⟨hinv1, hinv2, hinv4⟩ := hinv
  refine ⟨⟨?_, ?_⟩, ⟨?_, ?_⟩, ⟨?_, ?_⟩, ⟨?_, ?_⟩, ⟨?_, ?_, ?_⟩, ⟨?_, ?_⟩, ⟨?_, ?_⟩,
          ⟨?_, ?_⟩, ⟨?_, ?_⟩, ⟨?_, ?_⟩, ⟨?_, ?_⟩, ⟨?_, ?_⟩, ⟨?_, ?_⟩, ⟨?_, ?_⟩,
          ⟨?_, ?_⟩, ⟨?_, ?_⟩⟩
  -- request
  · intro h
    simp [Requester.request, State.toU8, Message.from_rq, h]
  · intro h
    simp [Requester.request, State.toU8, Ne.symm h]
  -- with_request_mut
  · rintro (h | h) <;> cases hd : c.data <;>
      simp [Requester.with_request_mut, Channel.transition, State.toU8, h, hd,
            Message.is_request_state, Message.from_rq, Message.rq_mut, Message.getRqD]
  · intro h0 h1
    simp [Requester.with_request_mut, Channel.transition, State.toU8, h0, h1]
  -- request_mut
  · rintro (h | h) <;> cases hd : c.data <;>
      simp [Requester.request_mut, Channel.transition, State.toU8, h, hd,
            Message.is_request_state, Message.from_rq, Message.rq_ref, Message.getRqD]
  · intro h0 h1
    simp [Requester.request_mut, Channel.transition, State.toU8, h0, h1]
  -- send_request
  · intro h
    simp [Requester.send_request, Channel.transition, State.toU8, h]
  · intro h
    simp [Requester.send_request, Channel.transition, State.toU8, h, Ne.symm h]
  -- cancel
  · intro h
    simp [Requester.cancel, Channel.transition, State.toU8, h]
  · intro h
    obtain ⟨rq, hrq⟩ := Message.is_request_state_iff.mp (hinv2 h)
    simp [Requester.cancel, Channel.transition, State.toU8, h, hrq,
          Message.take_rq, Message.getRqD]
  · intro h2 h3
    simp [Requester.cancel, Channel.transition, State.toU8, h2, h3]
  -- response
  · intro h
    obtain ⟨rp, hrp⟩ := Message.is_response_state_iff.mp (hinv4 h)
    have hrw : Requester.response c = some (Except.ok rp, { c with state := 4 }) := by
      simp [Requester.response, Channel.transition, State.toU8, h, hrp, Message.rp_ref]
    rw [hrw, Channel.update_state_self h, hrp]
    simp [Message.getRpD]
  · intro h
    simp [Requester.response, Channel.transition, State.toU8, h]
  -- with_response
  · intro h
    obtain ⟨rp, hrp⟩ := Message.is_response_state_iff.mp (hinv4 h)
    have hrw : Requester.with_response c f2 = some (Except.ok (f2 rp), { c with state := 4 }) := by
      simp [Requester.with_response, Channel.transition, State.toU8, h, hrp, Message.rp_ref]
    rw [hrw, Channel.update_state_self h, hrp]
    simp [Message.getRpD]
  · intro h
    simp [Requester.with_response, Channel.transition, State.toU8, h]
  -- take_response
  · intro h
    obtain ⟨rp, hrp⟩ := Message.is_response_state_iff.mp (hinv4 h)
    simp [Requester.take_response, Channel.transition, State.toU8, h, hrp,
          Message.take_rp, Message.getRpD]
  · intro h
    simp [Requester.take_response, Channel.transition, State.toU8, h]
  -- with_request (responder)
  · intro h
    obtain ⟨rq, hrq⟩ := Message.is_request_state_iff.mp (hinv2 h)
    simp [Responder.with_request, Channel.transition, State.toU8, h, hrq,
          Message.rq_ref, Message.getRqD]
  · intro h
    simp [Responder.with_request, Channel.transition, State.toU8, h]
  -- request (responder)
  · intro h
    obtain ⟨rq, hrq⟩ := Message.is_request_state_iff.mp (hinv2 h)
    simp [Responder.request, Channel.transition, State.toU8, h, hrq,
          Message.rq_ref, Message.getRqD]
  · intro h
    simp [Responder.request, Channel.transition, State.toU8, h]
  -- take_request
  · intro h
    obtain ⟨rq, hrq⟩ := Message.is_request_state_iff.mp (hinv2 h)
    simp [Responder.take_request, Channel.transition, State.toU8, h, hrq,
          Message.take_rq, Message.getRqD]
  · intro h
    simp [Responder.take_request, Channel.transition, State.toU8, h]
  -- acknowledge_cancel
  · intro h
    simp [Responder.acknowledge_cancel, Channel.transition, State.toU8, h]
  · intro h
    simp [Responder.acknowledge_cancel, Channel.transition, State.toU8, h]
  -- respond
  · intro h
    simp [Responder.respond, Channel.transition, State.toU8, Message.from_rp, h]
  · intro h
    simp [Responder.respond, Channel.transition, State.toU8, h, Ne.symm h]
  -- with_response_mut
  · rintro (h | h) <;> cases hd : c.data <;>
      simp [Responder.with_response_mut, Channel.transition, State.toU8, h, hd,
            Message.is_response_state, Message.from_rp, Message.rp_mut, Message.getRpD]
  · intro h2 h3
    simp [Responder.with_response_mut, Channel.transition, State.toU8, h2, h3]
  -- response_mut
  · rintro (h | h) <;> cases hd : c.data <;>
      simp [Responder.response_mut, Channel.transition, State.toU8, h, hd,
            Message.is_response_state, Message.from_rp, Message.rp_ref, Message.getRpD]
  · intro h2 h3
    simp [Responder.response_mut, Channel.transition, State.toU8, h2, h3]
  -- send_response
  · intro h
    simp [Responder.send_response, Channel.transition, State.toU8, h]
  · intro h
    simp [Responder.send_response, Channel.transition, State.toU8, h, Ne.symm h]

/-- Witness for C7 on a concrete channel in state `Requested` holding a
request: `request` fails leaving the channel unchanged, `cancel` and
`take_request` succeed with their exact effects, `acknowledge_cancel`
fails leaving the channel unchanged. -/
theorem C7_fail_iff_wrong_state_witness :
    Requester.request (⟨Message.Request 5, 2, true, true⟩ : Channel Nat Nat) 9
      = (Except.error ⟨⟩, ⟨Message.Request 5, 2, true, true⟩) ∧
    Requester.cancel (⟨Message.Request 5, 2, true, true⟩ : Channel Nat Nat)
      = some (Except.ok (some 5), ⟨Message.None, 0, true, true⟩) ∧
    Responder.take_request (⟨Message.Request 5, 2, true, true⟩ : Channel Nat Nat)
      = some (some 5, ⟨Message.None, 3, true, true⟩) ∧
    Responder.acknowledge_cancel (⟨Message.Request 5, 2, true, true⟩ : Channel Nat Nat)
      = (Except.error ⟨⟩, ⟨Message.Request 5, 2, true, true⟩) :=
  ⟨(C7_fail_iff_wrong_state (⟨Message.Request 5, 2, true, true⟩ : Channel Nat Nat)
      (by decide) 9 7 (fun rq => (rq + 1, rq)) (fun rp => rp * 2) (fun rq => rq)
      (fun rp => (rp + 3, rp))).1.2 (by decide),
   (C7_fail_iff_wrong_state (⟨Message.Request 5, 2, true, true⟩ : Channel Nat Nat)
      (by decide) 9 7 (fun rq => (rq + 1, rq)) (fun rp => rp * 2) (fun rq => rq)
      (fun rp => (rp + 3, rp))).2.2.2.2.1.2.1 rfl,
   (C7_fail_iff_wrong_state (⟨Message.Request 5, 2, true, true⟩ : Channel Nat Nat)
      (by decide) 9 7 (fun rq => (rq + 1, rq)) (fun rp => rp * 2) (fun rq => rq)
      (fun rp => (rp + 3, rp))).2.2.2.2.2.2.2.2.2.2.1.1 rfl,
   (C7_fail_iff_wrong_state (⟨Message.Request 5, 2, true, true⟩ : Channel Nat Nat)
      (by decide) 9 7 (fun rq => (rq + 1, rq)) (fun rp => rp * 2) (fun rq => rq)
      (fun rp => (rp + 3, rp))).2.2.2.2.2.2.2.2.2.2.2.1.2 (by decide)⟩

/-! ## C8 -/

/-- C8 counterexample: a reachable trace under which `with_request_mut`,
entered from `Idle`, does NOT default-initialize the slot and `f` does not
observe the default value.  The trace `request 5; with_request (peek);
cancel; acknowledge_cancel` ends in `Idle` with the stale request `5` still
in the slot (the peek leaves the request in place and the cancel path never
reclaims it); the subsequent `with_request_mut` entered from `Idle` hands
`f` the stale value `5`, not the default `0`. -/
theorem C8_counterexample :
    Requester.request (Channel.new : Channel Nat Nat) 5
      = (Except.ok (), ⟨Message.Request 5, 2, false, false⟩) ∧
    Responder.with_request (⟨Message.Request 5, 2, false, false⟩ : Channel Nat Nat)
        (fun _ => 0)
      = some (Except.ok 0, ⟨Message.Request 5, 3, false, false⟩) ∧
    Requester.cancel (⟨Message.Request 5, 3, false, false⟩ : Channel Nat Nat)
      = some (Except.ok none, ⟨Message.Request 5, 12, false, false⟩) ∧
    Responder.acknowledge_cancel (⟨Message.Request 5, 12, false, false⟩ : Channel Nat Nat)
      = (Except.ok (), ⟨Message.Request 5, 0, false, false⟩) ∧
    Requester.with_request_mut (⟨Message.Request 5, 0, false, false⟩ : Channel Nat Nat)
        (fun rq => (rq, rq))
      = some (Except.ok 5, ⟨Message.Request 5, 1, false, false⟩) ∧
    (Inhabited.default : Nat) = 0 ∧ (5 : Nat) ≠ 0 :=
  ⟨rfl, rfl, rfl, rfl, rfl, rfl, by decide⟩

/-- C8 amended: `with_request_mut(f)` (and `request_mut`) succeeds exactly
from `Idle` (transitioning to `BuildingRequest`) or from `BuildingRequest`
(a no-op re-entry) and fails from every other state; on entry it
default-initializes the slot only if the slot does not already hold a
request value, so `f` observes the default value whenever the slot held no
request, and observes the existing request value otherwise — this covers
both the re-entry case (the value built so far in the same transaction is
preserved) and a stale request left in the slot by a canceled exchange. -/
theorem C8_with_request_mut_lazy_default {Rq Rp A : Type} [Inhabited Rq] [Inhabited Rp]
    (c : Channel Rq Rp) (f : Rq → Rq × A) (rq : Rq) :
    (c.state = 0 ∨ c.state = 1 →
       Requester.with_request_mut c f
         = some (Except.ok (f c.data.getRqD).2,
                 { c with data := Message.Request (f c.data.getRqD).1, state := 1 })) ∧
    (c.state ≠ 0 → c.state ≠ 1 →
       Requester.with_request_mut c f = some (Except.error ⟨⟩, c)) ∧
    (c.state = 0 ∨ c.state = 1 →
       Requester.request_mut c
         = some (Except.ok c.data.getRqD,
                 { c with data := Message.Request c.data.getRqD, state := 1 })) ∧
    (c.state ≠ 0 → c.state ≠ 1 →
       Requester.request_mut c = some (Except.error ⟨⟩, c)) ∧
    (c.data.is_request_state = false → c.data.getRqD = Inhabited.default) ∧
    (c.data = Message.Request rq → c.data.getRqD = rq) := by
  refine ⟨?_, ?_, ?_, ?_, ?_, ?_⟩
  · rintro (h | h) <;> cases hd : c.data <;>
      simp [Requester.with_request_mut, Channel.transition, State.toU8, h, hd,
            Message.is_request_state, Message.from_rq, Message.rq_mut, Message.getRqD]
  · intro h0 h1
    simp [Requester.with_request_mut, Channel.transition, State.toU8, h0, h1]
  · rintro (h | h) <;> cases hd : c.data <;>
      simp [Requester.request_mut, Channel.transition, State.toU8, h, hd,
            Message.is_request_state, Message.from_rq, Message.rq_ref, Message.getRqD]
  · intro h0 h1
    simp [Requester.request_mut, Channel.transition, State.toU8, h0, h1]
  · intro h
    cases hd : c.data <;> simp_all [Message.is_request_state, Message.getRqD]
  · intro h
    simp [h, Message.getRqD]

/-- Witness for the amended C8: entry from `Idle` with an empty slot hands
`f` the default value; entry from `Idle` with a stale request hands `f` that
request; entry from `Requested` fails. -/
theorem C8_with_request_mut_lazy_default_witness :
    Requester.with_request_mut (⟨Message.None, 0, true, true⟩ : Channel Nat Nat)
        (fun rq => (rq + 1, rq))
      = some (Except.ok 0, ⟨Message.Request 1, 1, true, true⟩) ∧
    Requester.with_request_mut (⟨Message.Request 5, 0, true, true⟩ : Channel Nat Nat)
        (fun rq => (rq + 1, rq))
      = some (Except.ok 5, ⟨Message.Request 6, 1, true, true⟩) ∧
    Requester.with_request_mut (⟨Message.Request 5, 2, true, true⟩ : Channel Nat Nat)
        (fun rq => (rq + 1, rq))
      = some (Except.error ⟨⟩, ⟨Message.Request 5, 2, true, true⟩) ∧
    (Message.None : Message Nat Nat).getRqD = Inhabited.default :=
  ⟨(C8_with_request_mut_lazy_default (⟨Message.None, 0, true, true⟩ : Channel Nat Nat)
      (fun rq => (rq + 1, rq)) 0).1 (Or.inl rfl),
   (C8_with_request_mut_lazy_default (⟨Message.Request 5, 0, true, true⟩ : Channel Nat Nat)
      (fun rq => (rq + 1, rq)) 0).1 (Or.inl rfl),
   (C8_with_request_mut_lazy_default (⟨Message.Request 5, 2, true, true⟩ : Channel Nat Nat)
      (fun rq => (rq + 1, rq)) 0).2.1 (by decide) (by decide),
   (C8_with_request_mut_lazy_default (⟨Message.None, 0, true, true⟩ : Channel Nat Nat)
      (fun rq => (rq + 1, rq)) 0).2.2.2.2.1 rfl⟩

/-! ## Reachability -/

/-- Channel configurations reachable from a fresh channel by any sequence of
public operations.  Each constructor is one public call.  For operations
returning a bare `result × Channel` the successor is the second component;
for operations whose embedding carries the panic `Option`, only a `some`
result has a successor (a panicking call aborts and yields no configuration).
The `_write` constructors model a caller mutating the slot through the
`&mut` reference returned by `request_mut` / `response_mut`. -/
inductive Reachable {Rq Rp : Type} [Inhabited Rq] [Inhabited Rp] :
    Channel Rq Rp → Prop where
  | init : Reachable Channel.new
  | chan_requester (c : Channel Rq Rp) :
      Reachable c → Reachable (Channel.requester c).2
  | chan_responder (c : Channel Rq Rp) :
      Reachable c → Reachable (Channel.responder c).2
  | chan_split (c : Channel Rq Rp) :
      Reachable c → Reachable (Channel.split c).2
  | rq_drop (c : Channel Rq Rp) :
      Reachable c → Reachable (Requester.drop c)
  | rp_drop (c : Channel Rq Rp) :
      Reachable c → Reachable (Responder.drop c)
  | rq_request (c : Channel Rq Rp) (v : Rq) :
      Reachable c → Reachable (Requester.request c v).2
  | rq_with_request_mut (A : Type) (c : Channel Rq Rp) (f : Rq → Rq × A)
      (r : Except Error A) (c2 : Channel Rq Rp) :
      Reachable c → Requester.with_request_mut c f = some (r, c2) → Reachable c2
  | rq_request_mut (c : Channel Rq Rp) (r : Except Error Rq) (c2 : Channel Rq Rp) :
      Reachable c → Requester.request_mut c = some (r, c2) → Reachable c2
  | rq_request_mut_write (c : Channel Rq Rp) (rq x : Rq) (c2 : Channel Rq Rp) :
      Reachable c → Requester.request_mut c = some (Except.ok rq, c2) →
      Reachable { c2 with data := Message.Request x }
  | rq_send_request (c : Channel Rq Rp) :
      Reachable c → Reachable (Requester.send_request c).2
  | rq_cancel (c : Channel Rq Rp) (r : Except Error (Option Rq)) (c2 : Channel Rq Rp) :
      Reachable c → Requester.cancel c = some (r, c2) → Reachable c2
  | rq_response (c : Channel Rq Rp) (r : Except Error Rp) (c2 : Channel Rq Rp) :
      Reachable c → Requester.response c = some (r, c2) → Reachable c2
  | rq_with_response (B : Type) (c : Channel Rq Rp) (f : Rp → B)
      (r : Except Error B) (c2 : Channel Rq Rp) :
      Reachable c → Requester.with_response c f = some (r, c2) → Reachable c2
  | rq_take_response (c : Channel Rq Rp) (r : Option Rp) (c2 : Channel Rq Rp) :
      Reachable c → Requester.take_response c = some (r, c2) → Reachable c2
  | rp_with_request (B : Type) (c : Channel Rq Rp) (f : Rq → B)
      (r : Except Error B) (c2 : Channel Rq Rp) :
      Reachable c → Responder.with_request c f = some (r, c2) → Reachable c2
  | rp_request (c : Channel Rq Rp) (r : Except Error Rq) (c2 : Channel Rq Rp) :
      Reachable c → Responder.request c = some (r, c2) → Reachable c2
  | rp_take_request (c : Channel Rq Rp) (r : Option Rq) (c2 : Channel Rq Rp) :
      Reachable c → Responder.take_request c = some (r, c2) → Reachable c2
  | rp_acknowledge_cancel (c : Channel Rq Rp) :
      Reachable c → Reachable (Responder.acknowledge_cancel c).2
  | rp_respond (c : Channel Rq Rp) (w : Rp) :
      Reachable c → Reachable (Responder.respond c w).2
  | rp_with_response_mut (B : Type) (c : Channel Rq Rp) (f : Rp → Rp × B)
      (r : Except Error B) (c2 : Channel Rq Rp) :
      Reachable c → Responder.with_response_mut c f = some (r, c2) → Reachable c2
  | rp_response_mut (c : Channel Rq Rp) (r : Except Error Rp) (c2 : Channel Rq Rp) :
      Reachable c → Responder.response_mut c = some (r, c2) → Reachable c2
  | rp_response_mut_write (c : Channel Rq Rp) (rp x : Rp) (c2 : Channel Rq Rp) :
      Reachable c → Responder.response_mut c = some (Except.ok rp, c2) →
      Reachable { c2 with data := Message.Response x }
  | rp_send_response (c : Channel Rq Rp) :
      Reachable c → Reachable (Responder.send_response c).2

/-! ## C2 -/

theorem Channel.split_preserves {Rq Rp : Type} (c : Channel Rq Rp) :
    (Channel.split c).2.state = c.state ∧ (Channel.split c).2.data = c.data := by
  simp only [Channel.split, Channel.requester, Channel.responder, Requester.drop]
  by_cases h1 : c.requester_claimed = false <;>
    by_cases h2 : c.responder_claimed = false <;> simp [h1, h2]

theorem reachable_request_tag {Rq Rp : Type} [Inhabited Rq] [Inhabited Rp]
    {c : Channel Rq Rp} (h : Reachable c) :
    (c.state = 1 → c.data.is_request_state = true) ∧
    (c.state = 2 → c.data.is_request_state = true) := by
  induction h with
  | init => simp [Channel.new]
  | chan_requester c h ih =>
    simp only [Channel.requester]
    split <;> simpa using ih
  | chan_responder c h ih =>
    simp only [Channel.responder]
    split <;> simpa using ih
  | chan_split c h ih =>
    obtain ⟨hs, hd⟩ := Channel.split_preserves c
    rw [hs, hd]
    exact ih
  | rq_drop c h ih => simpa [Requester.drop] using ih
  | rp_drop c h ih => simpa [Responder.drop] using ih
  | rq_request c v h ih =>
    by_cases h0 : c.state = 0
    · simp [Requester.request, State.toU8, h0, Message.from_rq, Message.is_request_state]
    · simp only [Requester.request, State.toU8, if_neg (Ne.symm h0)]
      exact ih
  | rq_with_request_mut A c f r c2 h e ih =>
    by_cases h0 : c.state = 0
    · cases hd : c.data <;>
        simp [Requester.with_request_mut, Channel.transition, State.toU8, h0, hd,
              Message.is_request_state, Message.from_rq, Message.rq_mut] at e <;>
        simp [← e.2, Message.is_request_state]
    · by_cases h1 : c.state = 1
      · cases hd : c.data <;>
          simp [Requester.with_request_mut, Channel.transition, State.toU8, h0, h1, hd,
                Message.is_request_state, Message.from_rq, Message.rq_mut] at e <;>
          simp [← e.2, Message.is_request_state]
      · simp [Requester.with_request_mut, Channel.transition, State.toU8, h0, h1] at e
        rw [← e.2]
        exact ih
  | rq_request_mut c r c2 h e ih =>
    by_cases h0 : c.state = 0
    · cases hd : c.data <;>
        simp [Requester.request_mut, Channel.transition, State.toU8, h0, hd,
              Message.is_request_state, Message.from_rq, Message.rq_ref] at e <;>
        simp [← e.2, Message.is_request_state]
    · by_cases h1 : c.state = 1
      · cases hd : c.data <;>
          simp [Requester.request_mut, Channel.transition, State.toU8, h0, h1, hd,
                Message.is_request_state, Message.from_rq, Message.rq_ref] at e <;>
          simp [← e.2, Message.is_request_state]
      · simp [Requester.request_mut, Channel.transition, State.toU8, h0, h1] at e
        rw [← e.2]
        exact ih
  | rq_request_mut_write c rq x c2 h e ih =>
    simp [Message.is_request_state]
  | rq_send_request c h ih =>
    by_cases h1 : c.state = 1
    · simp [Requester.send_request, Channel.transition, State.toU8, h1]
      exact ih.1 h1
    · simp only [Requester.send_request, Channel.transition, State.toU8,
                 if_neg (Ne.symm h1)]
      exact ih
  | rq_cancel c r c2 h e ih =>
    by_cases h3 : c.state = 3
    · simp [Requester.cancel, Channel.transition, State.toU8, h3] at e
      simp [← e.2]
    · by_cases h2 : c.state = 2
      · cases hd : c.data <;>
          simp [Requester.cancel, Channel.transition, State.toU8, h3, h2, hd,
                Message.take_rq] at e <;>
          simp [← e.2, Message.is_request_state]
      · simp [Requester.cancel, Channel.transition, State.toU8, h3, h2] at e
        rw [← e.2]
        exact ih
  | rq_response c r c2 h e ih =>
    by_cases h4 : c.state = 4
    · cases hd : c.data <;>
        simp [Requester.response, Channel.transition, State.toU8, h4, hd,
              Message.rp_ref] at e <;>
        simp [← e.2, Message.is_request_state]
    · simp [Requester.response, Channel.transition, State.toU8, h4] at e
      rw [← e.2]
      exact ih
  | rq_with_response B c f r c2 h e ih =>
    by_cases h4 : c.state = 4
    · cases hd : c.data <;>
        simp [Requester.with_response, Channel.transition, State.toU8, h4, hd,
              Message.rp_ref] at e <;>
        simp [← e.2, Message.is_request_state]
    · simp [Requester.with_response, Channel.transition, State.toU8, h4] at e
      rw [← e.2]
      exact ih
  | rq_take_response c r c2 h e ih =>
    by_cases h4 : c.state = 4
    · cases hd : c.data <;>
        simp [Requester.take_response, Channel.transition, State.toU8, h4, hd,
              Message.take_rp] at e <;>
        simp [← e.2, Message.is_request_state]
    · simp [Requester.take_response, Channel.transition, State.toU8, h4] at e
      rw [← e.2]
      exact ih
  | rp_with_request B c f r c2 h e ih =>
    by_cases h2 : c.state = 2
    · cases hd : c.data <;>
        simp [Responder.with_request, Channel.transition, State.toU8, h2, hd,
              Message.rq_ref] at e <;>
        simp [← e.2, Message.is_request_state]
    · simp [Responder.with_request, Channel.transition, State.toU8, h2] at e
      rw [← e.2]
      exact ih
  | rp_request c r c2 h e ih =>
    by_cases h2 : c.state = 2
    · cases hd : c.data <;>
        simp [Responder.request, Channel.transition, State.toU8, h2, hd,
              Message.rq_ref] at e <;>
        simp [← e.2, Message.is_request_state]
    · simp [Responder.request, Channel.transition, State.toU8, h2] at e
      rw [← e.2]
      exact ih
  | rp_take_request c r c2 h e ih =>
    by_cases h2 : c.state = 2
    · cases hd : c.data <;>
        simp [Responder.take_request, Channel.transition, State.toU8, h2, hd,
              Message.take_rq] at e <;>
        simp [← e.2, Message.is_request_state]
    · simp [Responder.take_request, Channel.transition, State.toU8, h2] at e
      rw [← e.2]
      exact ih
  | rp_acknowledge_cancel c h ih =>
    by_cases h12 : c.state = 12
    · simp [Responder.acknowledge_cancel, Channel.transition, State.toU8, h12]
    · simp only [Responder.acknowledge_cancel, Channel.transition, State.toU8,
                 if_neg h12]
      exact ih
  | rp_respond c w h ih =>
    by_cases h3 : c.state = 3
    · simp [Responder.respond, Channel.transition, State.toU8, h3, Message.from_rp,
            Message.is_request_state]
    · simp only [Responder.respond, Channel.transition, State.toU8,
                 if_neg (Ne.symm h3)]
      exact ih
  | rp_with_response_mut B c f r c2 h e ih =>
    by_cases h2 : c.state = 2
    · cases hd : c.data <;>
        simp [Responder.with_response_mut, Channel.transition, State.toU8, h2, hd,
              Message.is_response_state, Message.from_rp, Message.rp_mut] at e <;>
        simp [← e.2, Message.is_request_state]
    · by_cases h3 : c.state = 3
      · cases hd : c.data <;>
          simp [Responder.with_response_mut, Channel.transition, State.toU8, h2, h3, hd,
                Message.is_response_state, Message.from_rp, Message.rp_mut] at e <;>
          simp [← e.2, Message.is_request_state]
      · simp [Responder.with_response_mut, Channel.transition, State.toU8, h2, h3] at e
        rw [← e.2]
        exact ih
  | rp_response_mut c r c2 h e ih =>
    by_cases h2 : c.state = 2
    · cases hd : c.data <;>
        simp [Responder.response_mut, Channel.transition, State.toU8, h2, hd,
              Message.is_response_state, Message.from_rp, Message.rp_ref] at e <;>
        simp [← e.2, Message.is_request_state]
    · by_cases h3 : c.state = 3
      · cases hd : c.data <;>
          simp [Responder.response_mut, Channel.transition, State.toU8, h2, h3, hd,
                Message.is_response_state, Message.from_rp, Message.rp_ref] at e <;>
          simp [← e.2, Message.is_request_state]
      · simp [Responder.response_mut, Channel.transition, State.toU8, h2, h3] at e
        rw [← e.2]
        exact ih
  | rp_response_mut_write c rp x c2 h e ih =>
    -- the write happens while the channel sits in BuildingResponse (state 3)
    by_cases h2 : c.state = 2
    · cases hd : c.data <;>
        simp [Responder.response_mut, Channel.transition, State.toU8, h2, hd,
              Message.is_response_state, Message.from_rp, Message.rp_ref] at e <;>
        simp [← e.2, Message.is_request_state]
    · by_cases h3 : c.state = 3
      · cases hd : c.data <;>
          simp [Responder.response_mut, Channel.transition, State.toU8, h2, h3, hd,
                Message.is_response_state, Message.from_rp, Message.rp_ref] at e <;>
          simp [← e.2, Message.is_request_state]
      · simp [Responder.response_mut, Channel.transition, State.toU8, h2, h3] at e
  | rp_send_response c h ih =>
    by_cases h3 : c.state = 3
    · simp [Responder.send_response, Channel.transition, State.toU8, h3]
    · simp only [Responder.send_response, Channel.transition, State.toU8,
                 if_neg (Ne.symm h3)]
      exact ih

/-- C2 counterexample: a trace of public operations from a fresh channel
reaching state `Idle` (and, along the way, `Canceled`) with the slot still
holding the request value `5`: `with_request` (a peek) leaves the request in
the slot, the late-cancel path never reclaims it, and `acknowledge_cancel`
carries it back to `Idle` — contradicting the claim that in `Idle` and
`Canceled` the slot holds no payload value. -/
theorem C2_counterexample :
    Requester.request (Channel.new : Channel Nat Nat) 5
      = (Except.ok (), ⟨Message.Request 5, 2, false, false⟩) ∧
    Responder.with_request (⟨Message.Request 5, 2, false, false⟩ : Channel Nat Nat)
        (fun _ => ())
      = some (Except.ok (), ⟨Message.Request 5, 3, false, false⟩) ∧
    Requester.cancel (⟨Message.Request 5, 3, false, false⟩ : Channel Nat Nat)
      = some (Except.ok none, ⟨Message.Request 5, 12, false, false⟩) ∧
    Responder.acknowledge_cancel (⟨Message.Request 5, 12, false, false⟩ : Channel Nat Nat)
      = (Except.ok (), ⟨Message.Request 5, 0, false, false⟩) ∧
    (⟨Message.Request 5, 0, false, false⟩ : Channel Nat Nat).state = State.Idle.toU8 ∧
    (⟨Message.Request 5, 0, false, false⟩ : Channel Nat Nat).data = Message.Request 5 ∧
    (⟨Message.Request 5, 12, false, false⟩ : Channel Nat Nat).state = State.Canceled.toU8 ∧
    (⟨Message.Request 5, 12, false, false⟩ : Channel Nat Nat).data = Message.Request 5 :=
  ⟨rfl, rfl, rfl, rfl, rfl, rfl, rfl, rfl⟩

/-- C2 amended: in every configuration reachable by public operations from a
fresh channel, the slot holds a request value whenever the state is
`BuildingRequest` or `Requested`; a fresh channel's slot holds nothing.  In
the remaining states (`Idle`, `BuildingResponse`, `Responded`, `Canceled`)
the slot may hold a request value, a response value, or nothing — in
particular a canceled exchange whose request was only peeked at leaves a
stale request value in the slot through `Canceled` and back into `Idle`. -/
theorem C2_slot_tag_matches_state {Rq Rp : Type} [Inhabited Rq] [Inhabited Rp]
    (c : Channel Rq Rp) (h : Reachable c) :
    ((c.state = State.BuildingRequest.toU8 ∨ c.state = State.Requested.toU8) →
      c.data.is_request_state = true) ∧
    (Channel.new : Channel Rq Rp).data = Message.None := by
  refine ⟨?_, rfl⟩
  rintro (h1 | h2)
  · exact (reachable_request_tag h).1 h1
  · exact (reachable_request_tag h).2 h2

/-- Witness for the amended C2 at the reachable configuration obtained by a
single `request 5` from a fresh channel (state `Requested`, slot holding the
request). -/
theorem C2_slot_tag_matches_state_witness :
    ((((Requester.request (Channel.new : Channel Nat Nat) 5).2).state
        = State.BuildingRequest.toU8 ∨
      ((Requester.request (Channel.new : Channel Nat Nat) 5).2).state
        = State.Requested.toU8) →
      ((Requester.request (Channel.new : Channel Nat Nat) 5).2).data.is_request_state
        = true) ∧
    (Channel.new : Channel Nat Nat).data = Message.None :=
  C2_slot_tag_matches_state (Requester.request (Channel.new : Channel Nat Nat) 5).2
    (Reachable.rq_request Channel.new 5 Reachable.init)

/-! ## C6 -/

/-- Channel configurations reachable from a fresh channel by sequences of
public operations in which `send_response` is only invoked while the slot
actually holds a response value (i.e. after `respond`, `with_response_mut`
or `response_mut` in the same transaction).  All other operations are
unrestricted. -/
inductive ReachableSafe {Rq Rp : Type} [Inhabited Rq] [Inhabited Rp] :
    Channel Rq Rp → Prop where
  | init : ReachableSafe Channel.new
  | chan_requester (c : Channel Rq Rp) :
      ReachableSafe c → ReachableSafe (Channel.requester c).2
  | chan_responder (c : Channel Rq Rp) :
      ReachableSafe c → ReachableSafe (Channel.responder c).2
  | chan_split (c : Channel Rq Rp) :
      ReachableSafe c → ReachableSafe (Channel.split c).2
  | rq_drop (c : Channel Rq Rp) :
      ReachableSafe c → ReachableSafe (Requester.drop c)
  | rp_drop (c : Channel Rq Rp) :
      ReachableSafe c → ReachableSafe (Responder.drop c)
  | rq_request (c : Channel Rq Rp) (v : Rq) :
      ReachableSafe c → ReachableSafe (Requester.request c v).2
  | rq_with_request_mut (A : Type) (c : Channel Rq Rp) (f : Rq → Rq × A)
      (r : Except Error A) (c2 : Channel Rq Rp) :
      ReachableSafe c → Requester.with_request_mut c f = some (r, c2) →
      ReachableSafe c2
  | rq_request_mut (c : Channel Rq Rp) (r : Except Error Rq) (c2 : Channel Rq Rp) :
      ReachableSafe c → Requester.request_mut c = some (r, c2) → ReachableSafe c2
  | rq_request_mut_write (c : Channel Rq Rp) (rq x : Rq) (c2 : Channel Rq Rp) :
      ReachableSafe c → Requester.request_mut c = some (Except.ok rq, c2) →
      ReachableSafe { c2 with data := Message.Request x }
  | rq_send_request (c : Channel Rq Rp) :
      ReachableSafe c → ReachableSafe (Requester.send_request c).2
  | rq_cancel (c : Channel Rq Rp) (r : Except Error (Option Rq)) (c2 : Channel Rq Rp) :
      ReachableSafe c → Requester.cancel c = some (r, c2) → ReachableSafe c2
  | rq_response (c : Channel Rq Rp) (r : Except Error Rp) (c2 : Channel Rq Rp) :
      ReachableSafe c → Requester.response c = some (r, c2) → ReachableSafe c2
  | rq_with_response (B : Type) (c : Channel Rq Rp) (f : Rp → B)
      (r : Except Error B) (c2 : Channel Rq Rp) :
      ReachableSafe c → Requester.with_response c f = some (r, c2) → ReachableSafe c2
  | rq_take_response (c : Channel Rq Rp) (r : Option Rp) (c2 : Channel Rq Rp) :
      ReachableSafe c → Requester.take_response c = some (r, c2) → ReachableSafe c2
  | rp_with_request (B : Type) (c : Channel Rq Rp) (f : Rq → B)
      (r : Except Error B) (c2 : Channel Rq Rp) :
      ReachableSafe c → Responder.with_request c f = some (r, c2) → ReachableSafe c2
  | rp_request (c : Channel Rq Rp) (r : Except Error Rq) (c2 : Channel Rq Rp) :
      ReachableSafe c → Responder.request c = some (r, c2) → ReachableSafe c2
  | rp_take_request (c : Channel Rq Rp) (r : Option Rq) (c2 : Channel Rq Rp) :
      ReachableSafe c → Responder.take_request c = some (r, c2) → ReachableSafe c2
  | rp_acknowledge_cancel (c : Channel Rq Rp) :
      ReachableSafe c → ReachableSafe (Responder.acknowledge_cancel c).2
  | rp_respond (c : Channel Rq Rp) (w : Rp) :
      ReachableSafe c → ReachableSafe (Responder.respond c w).2
  | rp_with_response_mut (B : Type) (c : Channel Rq Rp) (f : Rp → Rp × B)
      (r : Except Error B) (c2 : Channel Rq Rp) :
      ReachableSafe c → Responder.with_response_mut c f = some (r, c2) →
      ReachableSafe c2
  | rp_response_mut (c : Channel Rq Rp) (r : Except Error Rp) (c2 : Channel Rq Rp) :
      ReachableSafe c → Responder.response_mut c = some (r, c2) → ReachableSafe c2
  | rp_response_mut_write (c : Channel Rq Rp) (rp x : Rp) (c2 : Channel Rq Rp) :
      ReachableSafe c → Responder.response_mut c = some (Except.ok rp, c2) →
      ReachableSafe { c2 with data := Message.Response x }
  | rp_send_response (c : Channel Rq Rp) :
      ReachableSafe c → c.data.is_response_state = true →
      ReachableSafe (Responder.send_response c).2

theorem reachableSafe_slotInv {Rq Rp : Type} [Inhabited Rq] [Inhabited Rp]
    {c : Channel Rq Rp} (h : ReachableSafe c) :
    (c.state = 1 → c.data.is_request_state = true) ∧
    (c.state = 2 → c.data.is_request_state = true) ∧
    (c.state = 4 → c.data.is_response_state = true) := by
  induction h with
  | init => simp [Channel.new]
  | chan_requester c h ih =>
    simp only [Channel.requester]
    split <;> simpa using ih
  | chan_responder c h ih =>
    simp only [Channel.responder]
    split <;> simpa using ih
  | chan_split c h ih =>
    obtain ⟨hs, hd⟩ := Channel.split_preserves c
    rw [hs, hd]
    exact ih
  | rq_drop c h ih => simpa [Requester.drop] using ih
  | rp_drop c h ih => simpa [Responder.drop] using ih
  | rq_request c v h ih =>
    by_cases h0 : c.state = 0
    · simp [Requester.request, State.toU8, h0, Message.from_rq, Message.is_request_state]
    · simp only [Requester.request, State.toU8, if_neg (Ne.symm h0)]
      exact ih
  | rq_with_request_mut A c f r c2 h e ih =>
    by_cases h0 : c.state = 0
    · cases hd : c.data <;>
        simp [Requester.with_request_mut, Channel.transition, State.toU8, h0, hd,
              Message.is_request_state, Message.from_rq, Message.rq_mut] at e <;>
        simp [← e.2, Message.is_request_state]
    · by_cases h1 : c.state = 1
      · cases hd : c.data <;>
          simp [Requester.with_request_mut, Channel.transition, State.toU8, h0, h1, hd,
                Message.is_request_state, Message.from_rq, Message.rq_mut] at e <;>
          simp [← e.2, Message.is_request_state]
      · simp [Requester.with_request_mut, Channel.transition, State.toU8, h0, h1] at e
        rw [← e.2]
        exact ih
  | rq_request_mut c r c2 h e ih =>
    by_cases h0 : c.state = 0
    · cases hd : c.data <;>
        simp [Requester.request_mut, Channel.transition, State.toU8, h0, hd,
              Message.is_request_state, Message.from_rq, Message.rq_ref] at e <;>
        simp [← e.2, Message.is_request_state]
    · by_cases h1 : c.state = 1
      · cases hd : c.data <;>
          simp [Requester.request_mut, Channel.transition, State.toU8, h0, h1, hd,
                Message.is_request_state, Message.from_rq, Message.rq_ref] at e <;>
          simp [← e.2, Message.is_request_state]
      · simp [Requester.request_mut, Channel.transition, State.toU8, h0, h1] at e
        rw [← e.2]
        exact ih
  | rq_request_mut_write c rq x c2 h e ih =>
    by_cases h0 : c.state = 0
    · cases hd : c.data <;>
        simp [Requester.request_mut, Channel.transition, State.toU8, h0, hd,
              Message.is_request_state, Message.from_rq, Message.rq_ref] at e <;>
        simp [← e.2, Message.is_request_state]
    · by_cases h1 : c.state = 1
      · cases hd : c.data <;>
          simp [Requester.request_mut, Channel.transition, State.toU8, h0, h1, hd,
                Message.is_request_state, Message.from_rq, Message.rq_ref] at e <;>
          simp [← e.2, Message.is_request_state]
      · simp [Requester.request_mut, Channel.transition, State.toU8, h0, h1] at e
  | rq_send_request c h ih =>
    by_cases h1 : c.state = 1
    · simp [Requester.send_request, Channel.transition, State.toU8, h1]
      exact ih.1 h1
    · simp only [Requester.send_request, Channel.transition, State.toU8,
                 if_neg (Ne.symm h1)]
      exact ih
  | rq_cancel c r c2 h e ih =>
    by_cases h3 : c.state = 3
    · simp [Requester.cancel, Channel.transition, State.toU8, h3] at e
      simp [← e.2]
    · by_cases h2 : c.state = 2
      · cases hd : c.data <;>
          simp [Requester.cancel, Channel.transition, State.toU8, h3, h2, hd,
                Message.take_rq] at e <;>
          simp [← e.2, Message.is_request_state]
      · simp [Requester.cancel, Channel.transition, State.toU8, h3, h2] at e
        rw [← e.2]
        exact ih
  | rq_response c r c2 h e ih =>
    by_cases h4 : c.state = 4
    · cases hd : c.data <;>
        simp [Requester.response, Channel.transition, State.toU8, h4, hd,
              Message.rp_ref] at e <;>
        simp [← e.2, hd, Message.is_request_state, Message.is_response_state]
    · simp [Requester.response, Channel.transition, State.toU8, h4] at e
      rw [← e.2]
      exact ih
  | rq_with_response B c f r c2 h e ih =>
    by_cases h4 : c.state = 4
    · cases hd : c.data <;>
        simp [Requester.with_response, Channel.transition, State.toU8, h4, hd,
              Message.rp_ref] at e <;>
        simp [← e.2, hd, Message.is_request_state, Message.is_response_state]
    · simp [Requester.with_response, Channel.transition, State.toU8, h4] at e
      rw [← e.2]
      exact ih
  | rq_take_response c r c2 h e ih =>
    by_cases h4 : c.state = 4
    · cases hd : c.data <;>
        simp [Requester.take_response, Channel.transition, State.toU8, h4, hd,
              Message.take_rp] at e <;>
        simp [← e.2, Message.is_request_state]
    · simp [Requester.take_response, Channel.transition, State.toU8, h4] at e
      rw [← e.2]
      exact ih
  | rp_with_request B c f r c2 h e ih =>
    by_cases h2 : c.state = 2
    · cases hd : c.data <;>
        simp [Responder.with_request, Channel.transition, State.toU8, h2, hd,
              Message.rq_ref] at e <;>
        simp [← e.2, Message.is_request_state]
    · simp [Responder.with_request, Channel.transition, State.toU8, h2] at e
      rw [← e.2]
      exact ih
  | rp_request c r c2 h e ih =>
    by_cases h2 : c.state = 2
    · cases hd : c.data <;>
        simp [Responder.request, Channel.transition, State.toU8, h2, hd,
              Message.rq_ref] at e <;>
        simp [← e.2, Message.is_request_state]
    · simp [Responder.request, Channel.transition, State.toU8, h2] at e
      rw [← e.2]
      exact ih
  | rp_take_request c r c2 h e ih =>
    by_cases h2 : c.state = 2
    · cases hd : c.data <;>
        simp [Responder.take_request, Channel.transition, State.toU8, h2, hd,
              Message.take_rq] at e <;>
        simp [← e.2, Message.is_request_state]
    · simp [Responder.take_request, Channel.transition, State.toU8, h2] at e
      rw [← e.2]
      exact ih
  | rp_acknowledge_cancel c h ih =>
    by_cases h12 : c.state = 12
    · simp [Responder.acknowledge_cancel, Channel.transition, State.toU8, h12]
    · simp only [Responder.acknowledge_cancel, Channel.transition, State.toU8,
                 if_neg h12]
      exact ih
  | rp_respond c w h ih =>
    by_cases h3 : c.state = 3
    · simp [Responder.respond, Channel.transition, State.toU8, h3, Message.from_rp,
            Message.is_request_state, Message.is_response_state]
    · simp only [Responder.respond, Channel.transition, State.toU8,
                 if_neg (Ne.symm h3)]
      exact ih
  | rp_with_response_mut B c f r c2 h e ih =>
    by_cases h2 : c.state = 2
    · cases hd : c.data <;>
        simp [Responder.with_response_mut, Channel.transition, State.toU8, h2, hd,
              Message.is_response_state, Message.from_rp, Message.rp_mut] at e <;>
        simp [← e.2, Message.is_request_state, Message.is_response_state]
    · by_cases h3 : c.state = 3
      · cases hd : c.data <;>
          simp [Responder.with_response_mut, Channel.transition, State.toU8, h2, h3, hd,
                Message.is_response_state, Message.from_rp, Message.rp_mut] at e <;>
          simp [← e.2, Message.is_request_state, Message.is_response_state]
      · simp [Responder.with_response_mut, Channel.transition, State.toU8, h2, h3] at e
        rw [← e.2]
        exact ih
  | rp_response_mut c r c2 h e ih =>
    by_cases h2 : c.state = 2
    · cases hd : c.data <;>
        simp [Responder.response_mut, Channel.transition, State.toU8, h2, hd,
              Message.is_response_state, Message.from_rp, Message.rp_ref] at e <;>
        simp [← e.2, Message.is_request_state, Message.is_response_state]
    · by_cases h3 : c.state = 3
      · cases hd : c.data <;>
          simp [Responder.response_mut, Channel.transition, State.toU8, h2, h3, hd,
                Message.is_response_state, Message.from_rp, Message.rp_ref] at e <;>
          simp [← e.2, Message.is_request_state, Message.is_response_state]
      · simp [Responder.response_mut, Channel.transition, State.toU8, h2, h3] at e
        rw [← e.2]
        exact ih
  | rp_response_mut_write c rp x c2 h e ih =>
    by_cases h2 : c.state = 2
    · cases hd : c.data <;>
        simp [Responder.response_mut, Channel.transition, State.toU8, h2, hd,
              Message.is_response_state, Message.from_rp, Message.rp_ref] at e <;>
        simp [← e.2, Message.is_request_state, Message.is_response_state]
    · by_cases h3 : c.state = 3
      · cases hd : c.data <;>
          simp [Responder.response_mut, Channel.transition, State.toU8, h2, h3, hd,
                Message.is_response_state, Message.from_rp, Message.rp_ref] at e <;>
          simp [← e.2, Message.is_request_state, Message.is_response_state]
      · simp [Responder.response_mut, Channel.transition, State.toU8, h2, h3] at e
  | rp_send_response c h hg ih =>
    by_cases h3 : c.state = 3
    · simp [Responder.send_response, Channel.transition, State.toU8, h3]
      exact hg
    · simp only [Responder.send_response, Channel.transition, State.toU8,
                 if_neg (Ne.symm h3)]
      exact ih

/-- C6 counterexample: the public-API sequence `request 5; take_request;
send_response; take_response` on a fresh channel executes the
`unreachable!()` branch of `take_rp` (modelled by the `none` result of
`take_response`): `send_response` checks only the state byte, so it
publishes `Responded` while the slot is empty (`take_request` removed the
request and no response was ever placed), and the subsequent `take_response`
passes its CAS and then finds no response in the slot. -/
theorem C6_counterexample :
    Requester.request (Channel.new : Channel Nat Nat) 5
      = (Except.ok (), ⟨Message.Request 5, 2, false, false⟩) ∧
    Responder.take_request (⟨Message.Request 5, 2, false, false⟩ : Channel Nat Nat)
      = some (some 5, ⟨Message.None, 3, false, false⟩) ∧
    Responder.send_response (⟨Message.None, 3, false, false⟩ : Channel Nat Nat)
      = (Except.ok (), ⟨Message.None, 4, false, false⟩) ∧
    Requester.take_response (⟨Message.None, 4, false, false⟩ : Channel Nat Nat)
      = none :=
  ⟨rfl, rfl, rfl, rfl⟩

/-- C6 amended: as long as `send_response` is only invoked while the slot
actually holds a response value (the discipline its documentation assumes:
a response was placed with `respond`, `with_response_mut` or
`response_mut`), no sequence of public-API calls from a fresh channel
executes an `unreachable!()` branch: at every configuration so reachable,
every extraction-performing operation returns `some` (its panic branch,
modelled by `none`, is not taken).  Without that proviso a panic is
reachable, as the counterexample trace shows. -/
theorem C6_no_panic_under_send_response_discipline
    {Rq Rp A B C D : Type} [Inhabited Rq] [Inhabited Rp]
    (c : Channel Rq Rp) (h : ReachableSafe c)
    (f1 : Rq → Rq × A) (f2 : Rp → B) (f3 : Rq → C) (f4 : Rp → Rp × D) :
    (Requester.cancel c).isSome = true ∧
    (Requester.response c).isSome = true ∧
    (Requester.with_response c f2).isSome = true ∧
    (Requester.take_response c).isSome = true ∧
    (Requester.with_request_mut c f1).isSome = true ∧
    (Requester.request_mut c).isSome = true ∧
    (Responder.with_request c f3).isSome = true ∧
    (Responder.request c).isSome = true ∧
    (Responder.take_request c).isSome = true ∧
    (Responder.with_response_mut c f4).isSome = true ∧
    (Responder.response_mut c).isSome = true := by
  obtain ⟨i1, i2, i4⟩ := reachableSafe_slotInv h
  refine ⟨?_, ?_, ?_, ?_, ?_, ?_, ?_, ?_, ?_, ?_, ?_⟩
  · by_cases h3 : c.state = 3
    · simp [Requester.cancel, Channel.transition, State.toU8, h3]
    · by_cases h2 : c.state = 2
      · obtain ⟨rq, hd⟩ := Message.is_request_state_iff.mp (i2 h2)
        simp [Requester.cancel, Channel.transition, State.toU8, h2, h3, hd,
              Message.take_rq]
      · simp [Requester.cancel, Channel.transition, State.toU8, h2, h3]
  · by_cases h4 : c.state = 4
    · obtain ⟨rp, hd⟩ := Message.is_response_state_iff.mp (i4 h4)
      simp [Requester.response, Channel.transition, State.toU8, h4, hd,
            Message.rp_ref]
    · simp [Requester.response, Channel.transition, State.toU8, h4]
  · by_cases h4 : c.state = 4
    · obtain ⟨rp, hd⟩ := Message.is_response_state_iff.mp (i4 h4)
      simp [Requester.with_response, Channel.transition, State.toU8, h4, hd,
            Message.rp_ref]
    · simp [Requester.with_response, Channel.transition, State.toU8, h4]
  · by_cases h4 : c.state = 4
    · obtain ⟨rp, hd⟩ := Message.is_response_state_iff.mp (i4 h4)
      simp [Requester.take_response, Channel.transition, State.toU8, h4, hd,
            Message.take_rp]
    · simp [Requester.take_response, Channel.transition, State.toU8, h4]
  · by_cases h0 : c.state = 0
    · cases hd : c.data <;>
        simp [Requester.with_request_mut, Channel.transition, State.toU8, h0, hd,
              Message.is_request_state, Message.from_rq, Message.rq_mut]
    · by_cases h1 : c.state = 1
      · cases hd : c.data <;>
          simp [Requester.with_request_mut, Channel.transition, State.toU8, h0, h1,
                hd, Message.is_request_state, Message.from_rq, Message.rq_mut]
      · simp [Requester.with_request_mut, Channel.transition, State.toU8, h0, h1]
  · by_cases h0 : c.state = 0
    · cases hd : c.data <;>
        simp [Requester.request_mut, Channel.transition, State.toU8, h0, hd,
              Message.is_request_state, Message.from_rq, Message.rq_ref]
    · by_cases h1 : c.state = 1
      · cases hd : c.data <;>
          simp [Requester.request_mut, Channel.transition, State.toU8, h0, h1,
                hd, Message.is_request_state, Message.from_rq, Message.rq_ref]
      · simp [Requester.request_mut, Channel.transition, State.toU8, h0, h1]
  · by_cases h2 : c.state = 2
    · obtain ⟨rq, hd⟩ := Message.is_request_state_iff.mp (i2 h2)
      simp [Responder.with_request, Channel.transition, State.toU8, h2, hd,
            Message.rq_ref]
    · simp [Responder.with_request, Channel.transition, State.toU8, h2]
  · by_cases h2 : c.state = 2
    · obtain ⟨rq, hd⟩ := Message.is_request_state_iff.mp (i2 h2)
      simp [Responder.request, Channel.transition, State.toU8, h2, hd,
            Message.rq_ref]
    · simp [Responder.request, Channel.transition, State.toU8, h2]
  · by_cases h2 : c.state = 2
    · obtain ⟨rq, hd⟩ := Message.is_request_state_iff.mp (i2 h2)
      simp [Responder.take_request, Channel.transition, State.toU8, h2, hd,
            Message.take_rq]
    · simp [Responder.take_request, Channel.transition, State.toU8, h2]
  · by_cases h2 : c.state = 2
    · cases hd : c.data <;>
        simp [Responder.with_response_mut, Channel.transition, State.toU8, h2, hd,
              Message.is_response_state, Message.from_rp, Message.rp_mut]
    · by_cases h3 : c.state = 3
      · cases hd : c.data <;>
          simp [Responder.with_response_mut, Channel.transition, State.toU8, h2, h3,
                hd, Message.is_response_state, Message.from_rp, Message.rp_mut]
      · simp [Responder.with_response_mut, Channel.transition, State.toU8, h2, h3]
  · by_cases h2 : c.state = 2
    · cases hd : c.data <;>
        simp [Responder.response_mut, Channel.transition, State.toU8, h2, hd,
              Message.is_response_state, Message.from_rp, Message.rp_ref]
    · by_cases h3 : c.state = 3
      · cases hd : c.data <;>
          simp [Responder.response_mut, Channel.transition, State.toU8, h2, h3,
                hd, Message.is_response_state, Message.from_rp, Message.rp_ref]
      · simp [Responder.response_mut, Channel.transition, State.toU8, h2, h3]

/-- Witness for the amended C6 at the fresh channel. -/
theorem C6_no_panic_under_send_response_discipline_witness :
    (Requester.cancel (Channel.new : Channel Nat Nat)).isSome = true ∧
    (Requester.response (Channel.new : Channel Nat Nat)).isSome = true ∧
    (Requester.take_response (Channel.new : Channel Nat Nat)).isSome = true :=
  ⟨(C6_no_panic_under_send_response_discipline (Channel.new : Channel Nat Nat)
      ReachableSafe.init (fun rq => (rq + 1, rq)) (fun rp => rp * 2) (fun rq => rq)
      (fun rp => (rp + 3, rp))).1,
   (C6_no_panic_under_send_response_discipline (Channel.new : Channel Nat Nat)
      ReachableSafe.init (fun rq => (rq + 1, rq)) (fun rp => rp * 2) (fun rq => rq)
      (fun rp => (rp + 3, rp))).2.1,
   (C6_no_panic_under_send_response_discipline (Channel.new : Channel Nat Nat)
      ReachableSafe.init (fun rq => (rq + 1, rq)) (fun rp => rp * 2) (fun rq => rq)
      (fun rp => (rp + 3, rp))).2.2.2.1⟩

/-! ## Interchange pool (C5) -/

/-- Rust `struct Interchange<Rq, Rp, N>` viewed through `as_interchange_ref()`
(`struct InterchangeRef<'alloc, Rq, Rp>`): the channel array (as a list) and
the `AtomicUsize` claim cursor.  `Interchange::claim` simply delegates to
`InterchangeRef::claim`, so both are modelled on this one structure. -/
structure InterchangeRef (Rq Rp : Type) : Type where
  channels : List (Channel Rq Rp)
  last_claimed : Nat

/-- Rust `Interchange::new()`: `N` fresh channels (`CHANNEL_INIT`), cursor `0`. -/
def Interchange.new (Rq Rp : Type) (N : Nat) : InterchangeRef Rq Rp :=
  { channels := List.replicate N Channel.new, last_claimed := 0 }

/-- One `for` loop of `InterchangeRef::claim`: try `split()` on the channel
at each listed index in order, returning the first successful index together
with the updated channel array (a failed `split` also writes back the — then
unchanged — channel). -/
def claimScan {Rq Rp : Type} (chs : List (Channel Rq Rp)) :
    List Nat → Option (Nat × List (Channel Rq Rp))
  | [] => none
  | i :: rest =>
    match chs.get? i with
    | none => none
    | some ch =>
      if (ch.split).1 = true then some (i, chs.set i (ch.split).2)
      else claimScan (chs.set i (ch.split).2) rest

/-- Rust `InterchangeRef::claim`: `fetch_add(1)` on the cursor (wrapping at the
`usize` width, `2 ^ 64`) yielding the old value `index`, then scan
`index % n .. n` and `0 .. index % n` for a channel whose `split()`
succeeds.  The `Option Nat` result is the index of the claimed channel (the
returned handle pair borrows that channel), or `none` if all are claimed. -/
def InterchangeRef.claim {Rq Rp : Type} (ic : InterchangeRef Rq Rp) :
    Option Nat × InterchangeRef Rq Rp :=
  match claimScan ic.channels
      (List.range' (ic.last_claimed % ic.channels.length)
        (ic.channels.length - ic.last_claimed % ic.channels.length)) with
  | some (i, chs) =>
    (some i, { channels := chs, last_claimed := (ic.last_claimed + 1) % 2 ^ 64 })
  | none =>
    match claimScan ic.channels
        (List.range (ic.last_claimed % ic.channels.length)) with
    | some (i, chs) =>
      (some i, { channels := chs, last_claimed := (ic.last_claimed + 1) % 2 ^ 64 })
    | none => (none, { ic with last_claimed := (ic.last_claimed + 1) % 2 ^ 64 })

/-- Fully releasing a claimed handle pair of channel `j`: both `Drop` impls
run, storing `false` into both claim flags. -/
def InterchangeRef.releasePair {Rq Rp : Type} (ic : InterchangeRef Rq Rp) (j : Nat) :
    InterchangeRef Rq Rp :=
  match ic.channels.get? j with
  | some ch =>
    { ic with channels := ic.channels.set j (Responder.drop (Requester.drop ch)) }
  | none => ic

/-- A channel with both ends claimed and no transaction in progress: the
form a fresh channel takes right after a successful `split()`. -/
def Channel.bothClaimed {Rq Rp : Type} : Channel Rq Rp :=
  { data := Message.None
    state := 0
    requester_claimed := true
    responder_claimed := true }

/-- The pool configuration reached after `k` claims on a fresh pool of `N`
channels: channels `0 .. k-1` are claimed, the rest fresh, cursor `k`. -/
def poolAfter (Rq Rp : Type) (N k : Nat) : InterchangeRef Rq Rp :=
  { channels :=
      (List.range N).map (fun i => if i < k then Channel.bothClaimed else Channel.new)
    last_claimed := k }

theorem split_new {Rq Rp : Type} :
    (Channel.new : Channel Rq Rp).split = (true, Channel.bothClaimed) := rfl

theorem split_requester_claimed {Rq Rp : Type} {c : Channel Rq Rp}
    (h : c.requester_claimed = true) : c.split = (false, c) := by
  simp [Channel.split, Channel.requester, h]

theorem list_set_get_eq {α : Type} :
    ∀ (l : List α) (i : Nat) (a : α), l.get? i = some a → l.set i a = l
  | [], i, a, h => by simp at h
  | x :: xs, 0, a, h => by
      rw [List.get?_cons_zero] at h
      simp [Option.some.injEq] at h
      simp [h]
  | x :: xs, i + 1, a, h => by
      rw [List.get?_cons_succ] at h
      simpa using list_set_get_eq xs i a h

theorem claimScan_none {Rq Rp : Type} :
    ∀ (l : List Nat) (chs : List (Channel Rq Rp)),
      (∀ i ∈ l, ∀ ch, chs.get? i = some ch → ch.requester_claimed = true) →
      claimScan chs l = none
  | [], _, _ => rfl
  | i :: rest, chs, h => by
      cases hg : chs.get? i with
      | none => simp only [claimScan, hg]
      | some ch =>
        have hc := h i (by simp) ch hg
        simp only [claimScan, hg, split_requester_claimed hc]
        rw [list_set_get_eq chs i ch hg]
        exact claimScan_none rest chs (fun j hj => h j (by simp [hj]))

theorem claimScan_found {Rq Rp : Type} :
    ∀ (l1 : List Nat) (i : Nat) (l2 : List Nat) (chs : List (Channel Rq Rp))
      (ch : Channel Rq Rp),
      (∀ j ∈ l1, ∃ ch', chs.get? j = some ch' ∧ ch'.requester_claimed = true) →
      chs.get? i = some ch → (ch.split).1 = true →
      claimScan chs (l1 ++ i :: l2) = some (i, chs.set i (ch.split).2)
  | [], i, l2, chs, ch, _, hg, hs => by
      simp only [List.nil_append, claimScan, hg, hs]
      simp
  | j :: l1, i, l2, chs, ch, h, hg, hs => by
      obtain ⟨chj, hgj, hcj⟩ := h j (by simp)
      simp only [List.cons_append, claimScan, hgj, split_requester_claimed hcj]
      rw [list_set_get_eq chs j chj hgj]
      exact claimScan_found l1 i l2 chs ch (fun x hx => h x (by simp [hx])) hg hs

theorem poolAfter_length {Rq Rp : Type} (N k : Nat) :
    (poolAfter Rq Rp N k).channels.length = N := by
  simp [poolAfter]

theorem poolAfter_get {Rq Rp : Type} (N k i : Nat) (h : i < N) :
    ((poolAfter Rq Rp N k).channels).get? i
      = some (if i < k then Channel.bothClaimed else Channel.new) := by
  simp only [poolAfter]
  rw [List.get?_map, List.get?_range h]
  rfl

theorem poolAfter_get_none {Rq Rp : Type} (N k i : Nat) (h : N ≤ i) :
    ((poolAfter Rq Rp N k).channels).get? i = none := by
  rw [List.get?_eq_none]
  simpa [poolAfter] using h

theorem poolAfter_set_claimed {Rq Rp : Type} (N k : Nat) (hk : k < N) :
    ((poolAfter Rq Rp N k).channels).set k Channel.bothClaimed
      = (poolAfter Rq Rp N (k + 1)).channels := by
  apply List.ext_get?
  intro n
  by_cases hn : n < N
  · by_cases hnk : n = k
    · subst hnk
      rw [List.get?_set_eq_of_lt _ (by simpa [poolAfter_length] using hk),
          poolAfter_get _ _ _ hn]
      simp
    · rw [List.get?_set_ne _ _ (fun hh => hnk hh.symm), poolAfter_get _ _ _ hn,
          poolAfter_get _ _ _ hn]
      have : n < k ↔ n < k + 1 := by omega
      simp [this]
  · rw [List.get?_set_ne, poolAfter_get_none _ _ _ (by omega),
        poolAfter_get_none _ _ _ (by omega)]
    omega

theorem claim_poolAfter_step {Rq Rp : Type} (N k : Nat) (hk : k < N) (hN : N < 2 ^ 64) :
    InterchangeRef.claim (poolAfter Rq Rp N k) = (some k, poolAfter Rq Rp N (k + 1)) := by
  have hget : ((poolAfter Rq Rp N k).channels).get? k = some Channel.new := by
    rw [poolAfter_get N k k hk]
    simp
  have hrange :
      List.range'
        ((poolAfter Rq Rp N k).last_claimed % (poolAfter Rq Rp N k).channels.length)
        ((poolAfter Rq Rp N k).channels.length -
          (poolAfter Rq Rp N k).last_claimed % (poolAfter Rq Rp N k).channels.length)
      = k :: List.range' (k + 1) (N - (k + 1)) := by
    rw [poolAfter_length]
    show List.range' (k % N) (N - k % N) = _
    rw [Nat.mod_eq_of_lt hk, show N - k = (N - (k + 1)) + 1 from by omega,
        List.range'_succ]
  have hscan : claimScan (poolAfter Rq Rp N k).channels
      (k :: List.range' (k + 1) (N - (k + 1)))
      = some (k, ((poolAfter Rq Rp N k).channels).set k Channel.bothClaimed) := by
    have hf := claimScan_found [] k (List.range' (k + 1) (N - (k + 1)))
        (poolAfter Rq Rp N k).channels Channel.new (by simp) hget
        (by rw [split_new])
    rw [split_new] at hf
    rw [List.nil_append] at hf
    exact hf
  unfold InterchangeRef.claim
  rw [hrange, hscan, poolAfter_set_claimed N k hk]
  simp only [poolAfter]
  rw [Nat.mod_eq_of_lt (show k + 1 < 2 ^ 64 by omega)]

theorem claim_none_of_all_claimed {Rq Rp : Type} (ic : InterchangeRef Rq Rp)
    (hall : ∀ i ch, ic.channels.get? i = some ch → ch.requester_claimed = true) :
    InterchangeRef.claim ic
      = (none, { ic with last_claimed := (ic.last_claimed + 1) % 2 ^ 64 }) := by
  have h1 : claimScan ic.channels
      (List.range' (ic.last_claimed % ic.channels.length)
        (ic.channels.length - ic.last_claimed % ic.channels.length)) = none :=
    claimScan_none _ _ (fun i _ ch hg => hall i ch hg)
  have h2 : claimScan ic.channels
      (List.range (ic.last_claimed % ic.channels.length)) = none :=
    claimScan_none _ _ (fun i _ ch hg => hall i ch hg)
  unfold InterchangeRef.claim
  rw [h1, h2]

theorem claim_isSome_of_free {Rq Rp : Type} (ic : InterchangeRef Rq Rp) (j : Nat)
    (hj : j < ic.channels.length)
    (hjch : ic.channels.get? j = some Channel.new)
    (hothers : ∀ i ch, i ≠ j → ic.channels.get? i = some ch →
        ch.requester_claimed = true) :
    ((InterchangeRef.claim ic).1).isSome = true := by
  have hn0 : 0 < ic.channels.length := lt_of_le_of_lt (Nat.zero_le j) hj
  have hLn : ic.last_claimed % ic.channels.length < ic.channels.length :=
    Nat.mod_lt _ hn0
  by_cases hcase : ic.last_claimed % ic.channels.length ≤ j
  · have hsplit : List.range' (ic.last_claimed % ic.channels.length)
        (ic.channels.length - ic.last_claimed % ic.channels.length)
        = List.range' (ic.last_claimed % ic.channels.length)
            (j - ic.last_claimed % ic.channels.length) ++
          j :: List.range' (j + 1) (ic.channels.length - j - 1) := by
      rw [show ic.channels.length - ic.last_claimed % ic.channels.length
            = ((ic.channels.length - j - 1) + 1) +
              (j - ic.last_claimed % ic.channels.length) from by omega,
          ← List.range'_append_1,
          show ic.last_claimed % ic.channels.length +
            (j - ic.last_claimed % ic.channels.length) = j from by omega,
          List.range'_succ]
    have hfound := claimScan_found
        (List.range' (ic.last_claimed % ic.channels.length)
          (j - ic.last_claimed % ic.channels.length)) j
        (List.range' (j + 1) (ic.channels.length - j - 1)) ic.channels Channel.new
        (fun x hx => by
          rw [List.mem_range'_1] at hx
          have hxn : x < ic.channels.length := by omega
          have hxj : x ≠ j := by omega
          obtain ⟨ch, hch⟩ : ∃ ch, ic.channels.get? x = some ch :=
            ⟨ic.channels.get ⟨x, hxn⟩, List.get?_eq_get hxn⟩
          exact ⟨ch, hch, hothers x ch hxj hch⟩)
        hjch (by rw [split_new])
    unfold InterchangeRef.claim
    rw [hsplit, hfound]
    rfl
  · have hnone1 : claimScan ic.channels
        (List.range' (ic.last_claimed % ic.channels.length)
          (ic.channels.length - ic.last_claimed % ic.channels.length)) = none := by
      apply claimScan_none
      intro i hi ch hg
      rw [List.mem_range'_1] at hi
      exact hothers i ch (by omega) hg
    have hsplit2 : List.range (ic.last_claimed % ic.channels.length)
        = List.range' 0 j ++
          j :: List.range' (j + 1) (ic.last_claimed % ic.channels.length - j - 1) := by
      rw [List.range_eq_range',
          show ic.last_claimed % ic.channels.length
            = ((ic.last_claimed % ic.channels.length - j - 1) + 1) + j from by omega,
          ← List.range'_append_1]
      simp [List.range'_succ]
    have hfound := claimScan_found (List.range' 0 j) j
        (List.range' (j + 1) (ic.last_claimed % ic.channels.length - j - 1))
        ic.channels Channel.new
        (fun x hx => by
          rw [List.mem_range'_1] at hx
          have hxn : x < ic.channels.length := by omega
          have hxj : x ≠ j := by omega
          obtain ⟨ch, hch⟩ : ∃ ch, ic.channels.get? x = some ch :=
            ⟨ic.channels.get ⟨x, hxn⟩, List.get?_eq_get hxn⟩
          exact ⟨ch, hch, hothers x ch hxj hch⟩)
        hjch (by rw [split_new])
    unfold InterchangeRef.claim
    rw [hnone1, hsplit2, hfound]
    rfl

theorem releasePair_eq {Rq Rp : Type} (ic : InterchangeRef Rq Rp) (j : Nat)
    (ch : Channel Rq Rp) (h : ic.channels.get? j = some ch) :
    InterchangeRef.releasePair ic j
      = { ic with channels := ic.channels.set j (Responder.drop (Requester.drop ch)) } := by
  unfold InterchangeRef.releasePair
  rw [h]

/-- C5: pool exhaustion.  On a fresh `Interchange` of size `N ≥ 1` (and
`N < 2^64`, as `N` is a `usize`), the `k`-th `claim` (`0 ≤ k < N`) succeeds
and returns the handle pair of channel `k` — so the first `N` claims all
succeed on pairwise distinct channels; the `(N+1)`-th `claim` returns
nothing; and after fully releasing the claimed pair of any channel `j < N`,
a subsequent `claim` succeeds again. -/
theorem C5_pool_exhaustion {Rq Rp : Type} (N : Nat) (hN1 : 1 ≤ N) (hN : N < 2 ^ 64) :
    poolAfter Rq Rp N 0 = Interchange.new Rq Rp N ∧
    (∀ k, k < N → InterchangeRef.claim (poolAfter Rq Rp N k)
        = (some k, poolAfter Rq Rp N (k + 1))) ∧
    (InterchangeRef.claim (poolAfter Rq Rp N N)).1 = none ∧
    (∀ j, j < N →
      ((InterchangeRef.claim
          (InterchangeRef.releasePair
            ((InterchangeRef.claim (poolAfter Rq Rp N N)).2) j)).1).isSome = true) := by
  have hall : ∀ i ch, ((poolAfter Rq Rp N N).channels).get? i = some ch →
      ch.requester_claimed = true := by
    intro i ch hg
    by_cases hi : i < N
    · rw [poolAfter_get N N i hi, if_pos hi] at hg
      exact Option.some.inj hg ▸ rfl
    · rw [poolAfter_get_none N N i (by omega)] at hg
      cases hg
  have hfull := claim_none_of_all_claimed (poolAfter Rq Rp N N) hall
  refine ⟨?_, ?_, ?_, ?_⟩
  · unfold poolAfter Interchange.new
    congr 1
    simp
  · intro k hk
    exact claim_poolAfter_step N k hk hN
  · rw [hfull]
  · intro j hj
    rw [hfull]
    have hgj : (({ poolAfter Rq Rp N N with
          last_claimed := ((poolAfter Rq Rp N N).last_claimed + 1) % 2 ^ 64 } :
            InterchangeRef Rq Rp)).channels.get? j = some Channel.bothClaimed := by
      show ((poolAfter Rq Rp N N).channels).get? j = some Channel.bothClaimed
      rw [poolAfter_get N N j hj, if_pos hj]
    rw [releasePair_eq _ j Channel.bothClaimed hgj]
    apply claim_isSome_of_free _ j
    · show j < (((poolAfter Rq Rp N N).channels).set j _).length
      simpa [poolAfter_length] using hj
    · show (((poolAfter Rq Rp N N).channels).set j
          (Responder.drop (Requester.drop Channel.bothClaimed))).get? j
          = some Channel.new
      rw [List.get?_set_eq_of_lt _ (by simpa [poolAfter_length] using hj)]
      rfl
    · intro i ch hij hg
      rw [show (({ poolAfter Rq Rp N N with
              last_claimed := ((poolAfter Rq Rp N N).last_claimed + 1) % 2 ^ 64,
              channels := ((poolAfter Rq Rp N N).channels).set j
                (Responder.drop (Requester.drop Channel.bothClaimed)) } :
                InterchangeRef Rq Rp)).channels
            = ((poolAfter Rq Rp N N).channels).set j
                (Responder.drop (Requester.drop Channel.bothClaimed)) from rfl] at hg
      rw [List.get?_set_ne _ _ (fun hh => hij hh.symm)] at hg
      exact hall i ch hg

/-- Witness for C5 at `N = 2`: the second claim takes channel 1, the third
claim fails, and after releasing channel 0's pair a claim succeeds again. -/
theorem C5_pool_exhaustion_witness :
    InterchangeRef.claim (poolAfter Unit Unit 2 1) = (some 1, poolAfter Unit Unit 2 2) ∧
    (InterchangeRef.claim (poolAfter Unit Unit 2 2)).1 = none ∧
    ((InterchangeRef.claim
        (InterchangeRef.releasePair
          ((InterchangeRef.claim (poolAfter Unit Unit 2 2)).2) 0)).1).isSome = true :=
  ⟨(C5_pool_exhaustion 2 (by decide) (by decide)).2.1 1 (by decide),
   (C5_pool_exhaustion 2 (by decide) (by decide)).2.2.1,
   (C5_pool_exhaustion 2 (by decide) (by decide)).2.2.2 0 (by decide)⟩
